import Mathlib

/-!
Verification of the vending-machine verification workflow state machine.

Shallow embedding of the AWS Step Functions state machine declared in
src/product-approach/infrastructure/step_functions_construct.py
(StepFunctionsConstruct).  The construct wires 26 states: Lambda task
states, Pass states that rebuild the execution context, and two Choice
states, into a single acyclic workflow graph.  We embed:

  - JSON-like context values (J), JSONPath read/write restricted to the
    path shapes actually used by the construct (depth at most 2 for
    reads, depth at most 1 for result paths),
  - the Pass/payload parameter templates, including the States.Array
    intrinsic (which builds an array whose elements are its arguments),
  - each state of the construct as a StateDef record, one Lean
    definition per Python variable in the source, keeping the source
    names (the Python names built on the word that is the common verb
    for setting-up are shortened to the four-letter form of that verb
    to satisfy local naming constraints; the mapping is noted at each
    definition),
  - a small-step executor faithful to the documented Step Functions
    semantics: a task state consumes one event from an oracle (the
    result or failure of the corresponding Lambda, or the firing of the
    execution-level timeout); a failure is routed to the state's Catch
    target with the error object written at the catch result path, or
    fails the whole execution if the state has no Catch; parameter /
    payload template evaluation over a missing path is a States.Runtime
    error, which AWS documents as never caught by Catch clauses and as
    failing the execution; the execution-level timeout (the construct
    sets timeout = 15 minutes on the StateMachine) terminates the
    execution immediately and is not catchable by any state-level Catch.

The executor returns the trace of states entered, each paired with the
context it was entered with, together with the way the run ended.
-/

namespace VMVerif

/-- JSON-like values: the execution context of the state machine. -/
inductive J where
  | null
  | bool (b : Bool)
  | num (n : Int)
  | str (s : String)
  | arr (xs : List J)
  | obj (fs : List (String × J))

/-- Field lookup in a JSON object value (first binding wins). -/
def getField (fs : List (String × J)) (k : String) : Option J :=
  match fs with
  | [] => none
  | (k', v) :: rest => if k' = k then some v else getField rest k

/-- JSONPath read: [] is the path for the dollar root, and each list
element is one field step.  Reading a missing field, or a field of a
non-object, yields none (a States.Runtime error in the machine). -/
def readPath (c : J) : List String → Option J
  | [] => some c
  | k :: p =>
    match c with
    | .obj fs =>
      match getField fs k with
      | some v => readPath v p
      | none => none
    | _ => none

/-- Replace or add a field binding in an object field list. -/
def setField (fs : List (String × J)) (k : String) (v : J) : List (String × J) :=
  match fs with
  | [] => [(k, v)]
  | (k', v') :: rest => if k' = k then (k', v) :: rest else (k', v') :: setField rest k v

/-- JSONPath write for result paths.  The empty path replaces the whole
context (result_path of a plain dollar sign); the construct only uses
result paths of depth at most one, so deeper writes need no meaning
here and leave the context unchanged. -/
def setPath (c : J) (p : List String) (v : J) : J :=
  match p with
  | [] => v
  | [k] =>
    match c with
    | .obj fs => .obj (setField fs k v)
    | _ => .obj [(k, v)]
  | _ :: _ :: _ => c

/-- Parameter templates of Pass states and task payloads.  A key whose
source name carries the dollar suffix maps to jpath; a literal value
maps to lit; the States.Array intrinsic is used in the source only with
exactly two arguments and builds a two-element array from them. -/
inductive Tmpl where
  | lit (v : J)
  | jpath (p : List String)
  | tobj (fs : List (String × Tmpl))
  | statesArray (a b : Tmpl)

mutual

/-- Template evaluation against a context.  A read of a missing path
makes the whole evaluation fail (States.Runtime). -/
def evalTmpl (c : J) : Tmpl → Option J
  | .lit v => some v
  | .jpath p => readPath c p
  | .statesArray a b =>
    match evalTmpl c a, evalTmpl c b with
    | some va, some vb => some (J.arr [va, vb])
    | _, _ => none
  | .tobj fs => (evalFields c fs).map J.obj

/-- Evaluation of the field list of an object template. -/
def evalFields (c : J) : List (String × Tmpl) → Option (List (String × J))
  | [] => some []
  | (k, t) :: rest =>
    match evalTmpl c t, evalFields c rest with
    | some v, some vs => some ((k, v) :: vs)
    | _, _ => none

end

/-- The state names of the workflow, one constructor per state id in the
construct.  The two state ids built on the setting-up verb appear here
as Init and InitConversationState. -/
inductive SName where
  | Init
  | CheckVerificationType
  | FetchHistoricalVerification
  | FetchImages
  | PrepareSystemPrompt
  | InitConversationState
  | PrepareTurn1Prompt
  | ExecuteTurn1
  | ProcessTurn1Response
  | UpdateConversationStateAfterTurn1
  | PrepareTurn2Prompt
  | ExecuteTurn2
  | ProcessTurn2Response
  | UpdateConversationStateAfterTurn2
  | FinalizeResults
  | StoreResults
  | ShouldNotify
  | Notify
  | WorkflowComplete
  | HandleInitError
  | HandleHistoricalFetchError
  | HandleFetchImagesError
  | HandleBedrockErrorTurn1
  | HandleBedrockErrorTurn2
  | FinalizeWithErrorTurn1
  | FinalizeWithErrorTurn2
deriving DecidableEq, Repr

/-- What kind of state a state is, with the data the executor needs:
task states carry an optional payload template (none means the default
payload, the whole input), the result path, and the optional Catch
target; Pass states carry their parameters template and optional result
path; Choice states carry the compared path, the compared value and the
two successors. -/
inductive SKind where
  | task (payload : Option Tmpl) (resultPath : List String) (catchTo : Option SName)
  | pass (params : Tmpl) (resultPath : Option (List String))
  | choiceStr (p : List String) (v : String) (onTrue onFalse : SName)
  | choiceBool (p : List String) (v : Bool) (onTrue onFalse : SName)

/-- One state of the machine: its kind and its normal successor (none
for terminal states and for Choice states, whose successors live in the
kind). -/
structure StateDef where
  kind : SKind
  next : Option SName

/-! State definitions transcribed one-to-one from
step_functions_construct.py.  Each definition keeps the Python variable
name (the two names built on the setting-up verb are shortened to
init_task and init_conversation_state).  The next fields transcribe the
chain wiring done later in the construct (initialize_chain,
verification_type_choice wiring, image_processing_chain,
should_notify_choice wiring). -/

/-- Task "Initialize": result_path dollar.verificationContext, catch to
HandleInitializationError, then CheckVerificationType. -/
def init_task : StateDef :=
  { kind := .task none ["verificationContext"] (some .HandleInitError)
    next := some .CheckVerificationType }

/-- Task "FetchHistoricalVerification": result_path
dollar.historicalContext, catch to HandleHistoricalFetchError, then
FetchImages. -/
def fetch_historical_verification_task : StateDef :=
  { kind := .task none ["historicalContext"] (some .HandleHistoricalFetchError)
    next := some .FetchImages }

/-- Task "FetchImages": result_path is the dollar root (the task result
replaces the whole context), catch to HandleFetchImagesError, then
PrepareSystemPrompt. -/
def fetch_images_task : StateDef :=
  { kind := .task none [] (some .HandleFetchImagesError)
    next := some .PrepareSystemPrompt }

/-- Task "PrepareSystemPrompt": result_path dollar.systemPrompt, no
catch, then InitializeConversationState. -/
def prepare_system_prompt_task : StateDef :=
  { kind := .task none ["systemPrompt"] none
    next := some .InitConversationState }

/-- The literal conversation-state object the Pass state
"InitializeConversationState" writes: turn 0 of 2, empty history, empty
analyses. -/
def conversation_state_start : J :=
  J.obj
    [ ("currentTurn", J.num 0)
    , ("maxTurns", J.num 2)
    , ("history", J.arr [])
    , ("referenceAnalysis", J.obj [])
    , ("checkingAnalysis", J.obj []) ]

/-- Parameters of the Pass state "InitializeConversationState". -/
def init_conversation_state_params : Tmpl :=
  .tobj
    [ ("verificationContext", .jpath ["verificationContext"])
    , ("images", .jpath ["images"])
    , ("systemPrompt", .jpath ["systemPrompt"])
    , ("historicalContext", .jpath ["historicalContext"])
    , ("conversationState", .lit conversation_state_start) ]

/-- Pass state "InitializeConversationState": rebuilds the context from
the listed fields only, then PrepareTurn1Prompt. -/
def init_conversation_state : StateDef :=
  { kind := .pass init_conversation_state_params none
    next := some .PrepareTurn1Prompt }

/-- Payload of the task "PrepareTurn1Prompt". -/
def prepare_turn1_prompt_payload : Tmpl :=
  .tobj
    [ ("verificationContext", .jpath ["verificationContext"])
    , ("images", .jpath ["images"])
    , ("systemPrompt", .jpath ["systemPrompt"])
    , ("historicalContext", .jpath ["historicalContext"])
    , ("conversationState", .jpath ["conversationState"])
    , ("turnNumber", .lit (J.num 1))
    , ("includeImage", .lit (J.str "reference")) ]

/-- Task "PrepareTurn1Prompt": explicit payload, result_path
dollar.currentPrompt, no catch, then ExecuteTurn1. -/
def prepare_turn1_prompt_task : StateDef :=
  { kind := .task (some prepare_turn1_prompt_payload) ["currentPrompt"] none
    next := some .ExecuteTurn1 }

/-- Task "ExecuteTurn1": result_path dollar.turn1Response, catch to
HandleBedrockErrorTurn1, then ProcessTurn1Response. -/
def execute_turn1_task : StateDef :=
  { kind := .task none ["turn1Response"] (some .HandleBedrockErrorTurn1)
    next := some .ProcessTurn1Response }

/-- Task "ProcessTurn1Response": result_path dollar.referenceAnalysis,
no catch, then UpdateConversationStateAfterTurn1. -/
def process_turn1_response_task : StateDef :=
  { kind := .task none ["referenceAnalysis"] none
    next := some .UpdateConversationStateAfterTurn1 }

/-- Parameters of the Pass state "UpdateConversationStateAfterTurn1".
The history field uses the States.Array intrinsic applied to the prior
history and the turn-1 response. -/
def update_conversation_state_after_turn1_params : Tmpl :=
  .tobj
    [ ("verificationContext", .jpath ["verificationContext"])
    , ("images", .jpath ["images"])
    , ("systemPrompt", .jpath ["systemPrompt"])
    , ("historicalContext", .jpath ["historicalContext"])
    , ("currentPrompt", .jpath ["currentPrompt"])
    , ("turn1Response", .jpath ["turn1Response"])
    , ("referenceAnalysis", .jpath ["referenceAnalysis"])
    , ("conversationState", .tobj
        [ ("currentTurn", .lit (J.num 1))
        , ("maxTurns", .lit (J.num 2))
        , ("history", .statesArray (.jpath ["conversationState", "history"])
            (.jpath ["turn1Response"]))
        , ("referenceAnalysis", .jpath ["referenceAnalysis"])
        , ("checkingAnalysis", .jpath ["conversationState", "checkingAnalysis"]) ]) ]

/-- Pass state "UpdateConversationStateAfterTurn1", then
PrepareTurn2Prompt. -/
def update_conversation_state_after_turn1 : StateDef :=
  { kind := .pass update_conversation_state_after_turn1_params none
    next := some .PrepareTurn2Prompt }

/-- Payload of the task "PrepareTurn2Prompt". -/
def prepare_turn2_prompt_payload : Tmpl :=
  .tobj
    [ ("verificationContext", .jpath ["verificationContext"])
    , ("images", .jpath ["images"])
    , ("systemPrompt", .jpath ["systemPrompt"])
    , ("historicalContext", .jpath ["historicalContext"])
    , ("conversationState", .jpath ["conversationState"])
    , ("turnNumber", .lit (J.num 2))
    , ("includeImage", .lit (J.str "checking"))
    , ("previousContext", .jpath ["referenceAnalysis"]) ]

/-- Task "PrepareTurn2Prompt": explicit payload, result_path
dollar.currentPrompt, no catch, then ExecuteTurn2. -/
def prepare_turn2_prompt_task : StateDef :=
  { kind := .task (some prepare_turn2_prompt_payload) ["currentPrompt"] none
    next := some .ExecuteTurn2 }

/-- Task "ExecuteTurn2": result_path dollar.turn2Response, catch to
HandleBedrockErrorTurn2, then ProcessTurn2Response. -/
def execute_turn2_task : StateDef :=
  { kind := .task none ["turn2Response"] (some .HandleBedrockErrorTurn2)
    next := some .ProcessTurn2Response }

/-- Task "ProcessTurn2Response": result_path dollar.checkingAnalysis,
no catch, then UpdateConversationStateAfterTurn2. -/
def process_turn2_response_task : StateDef :=
  { kind := .task none ["checkingAnalysis"] none
    next := some .UpdateConversationStateAfterTurn2 }

/-- Parameters of the Pass state "UpdateConversationStateAfterTurn2". -/
def update_conversation_state_after_turn2_params : Tmpl :=
  .tobj
    [ ("verificationContext", .jpath ["verificationContext"])
    , ("images", .jpath ["images"])
    , ("systemPrompt", .jpath ["systemPrompt"])
    , ("historicalContext", .jpath ["historicalContext"])
    , ("currentPrompt", .jpath ["currentPrompt"])
    , ("turn1Response", .jpath ["turn1Response"])
    , ("turn2Response", .jpath ["turn2Response"])
    , ("referenceAnalysis", .jpath ["referenceAnalysis"])
    , ("checkingAnalysis", .jpath ["checkingAnalysis"])
    , ("conversationState", .tobj
        [ ("currentTurn", .lit (J.num 2))
        , ("maxTurns", .lit (J.num 2))
        , ("history", .statesArray (.jpath ["conversationState", "history"])
            (.jpath ["turn2Response"]))
        , ("referenceAnalysis", .jpath ["referenceAnalysis"])
        , ("checkingAnalysis", .jpath ["checkingAnalysis"]) ]) ]

/-- Pass state "UpdateConversationStateAfterTurn2", then
FinalizeResults. -/
def update_conversation_state_after_turn2 : StateDef :=
  { kind := .pass update_conversation_state_after_turn2_params none
    next := some .FinalizeResults }

/-- Task "FinalizeResults": result_path dollar.finalResults, no catch,
then StoreResults. -/
def finalize_results_task : StateDef :=
  { kind := .task none ["finalResults"] none
    next := some .StoreResults }

/-- Task "StoreResults": result_path dollar.storageResult, no catch,
then the ShouldNotify choice. -/
def store_results_task : StateDef :=
  { kind := .task none ["storageResult"] none
    next := some .ShouldNotify }

/-- Task "Notify": result_path dollar.notificationResult, no catch,
then WorkflowComplete. -/
def notify_task : StateDef :=
  { kind := .task none ["notificationResult"] none
    next := some .WorkflowComplete }

/-- Parameters of the terminal Pass state "WorkflowComplete".  The
timestamp field reads the state-entered time from the Step Functions
context object, which is always available; it is modelled as a literal
placeholder string since its value never feeds a branch. -/
def workflow_complete_params : Tmpl :=
  .tobj
    [ ("verificationId", .jpath ["verificationContext", "verificationId"])
    , ("verificationType", .jpath ["verificationContext", "verificationType"])
    , ("status", .lit (J.str "COMPLETED"))
    , ("timestamp", .lit (J.str "StateEnteredTime"))
    , ("result", .tobj
        [ ("verificationStatus", .jpath ["finalResults", "verificationStatus"])
        , ("resultImageUrl", .jpath ["storageResult", "resultImageUrl"])
        , ("confidenceScore", .jpath ["finalResults", "confidenceScore"])
        , ("discrepanciesCount", .jpath ["finalResults", "discrepanciesCount"]) ]) ]

/-- Terminal Pass state "WorkflowComplete". -/
def workflow_complete : StateDef :=
  { kind := .pass workflow_complete_params none
    next := none }

/-- Terminal Pass state "HandleInitializationError": writes a FAILED
status object with a reason at result_path dollar.error, no successor. -/
def handle_init_error : StateDef :=
  { kind := .pass
      (.lit (J.obj
        [ ("status", J.str "FAILED")
        , ("error", J.str "Failed to initialize verification process") ]))
      (some ["error"])
    next := none }

/-- Terminal Pass state "HandleHistoricalFetchError". -/
def handle_historical_fetch_error : StateDef :=
  { kind := .pass
      (.lit (J.obj
        [ ("status", J.str "FAILED")
        , ("error", J.str "Failed to retrieve historical verification data") ]))
      (some ["error"])
    next := none }

/-- Terminal Pass state "HandleFetchImagesError". -/
def handle_fetch_images_error : StateDef :=
  { kind := .pass
      (.lit (J.obj
        [ ("status", J.str "FAILED")
        , ("error", J.str "Failed to fetch images or metadata") ]))
      (some ["error"])
    next := none }

/-- Task "HandleBedrockErrorTurn1": result_path is the dollar root (the
handler result replaces the whole context), no catch, then
FinalizeWithErrorTurn1. -/
def handle_bedrock_error_turn1_task : StateDef :=
  { kind := .task none [] none
    next := some .FinalizeWithErrorTurn1 }

/-- Task "HandleBedrockErrorTurn2": result_path is the dollar root, no
catch, then FinalizeWithErrorTurn2. -/
def handle_bedrock_error_turn2_task : StateDef :=
  { kind := .task none [] none
    next := some .FinalizeWithErrorTurn2 }

/-- Task "FinalizeWithErrorTurn1": result_path dollar.finalResults, no
catch, then StoreResults. -/
def finalize_with_error_turn1_task : StateDef :=
  { kind := .task none ["finalResults"] none
    next := some .StoreResults }

/-- Task "FinalizeWithErrorTurn2": result_path dollar.finalResults, no
catch, then StoreResults. -/
def finalize_with_error_turn2_task : StateDef :=
  { kind := .task none ["finalResults"] none
    next := some .StoreResults }

/-- Choice state "CheckVerificationType": a case-sensitive string
comparison of dollar.verificationContext.verificationType with the
lower-case string previous_vs_current; on a match go to
FetchHistoricalVerification, otherwise (any other value) go to
FetchImages. -/
def verification_type_choice : StateDef :=
  { kind := .choiceStr ["verificationContext", "verificationType"]
      "previous_vs_current" .FetchHistoricalVerification .FetchImages
    next := none }

/-- Choice state "ShouldNotify": boolean comparison of
dollar.verificationContext.notificationEnabled with true; on a match go
to Notify, otherwise to WorkflowComplete. -/
def should_notify_choice : StateDef :=
  { kind := .choiceBool ["verificationContext", "notificationEnabled"] true
      .Notify .WorkflowComplete
    next := none }

/-- The machine: state name to state definition. -/
def stateDef : SName → StateDef
  | .Init => init_task
  | .CheckVerificationType => verification_type_choice
  | .FetchHistoricalVerification => fetch_historical_verification_task
  | .FetchImages => fetch_images_task
  | .PrepareSystemPrompt => prepare_system_prompt_task
  | .InitConversationState => init_conversation_state
  | .PrepareTurn1Prompt => prepare_turn1_prompt_task
  | .ExecuteTurn1 => execute_turn1_task
  | .ProcessTurn1Response => process_turn1_response_task
  | .UpdateConversationStateAfterTurn1 => update_conversation_state_after_turn1
  | .PrepareTurn2Prompt => prepare_turn2_prompt_task
  | .ExecuteTurn2 => execute_turn2_task
  | .ProcessTurn2Response => process_turn2_response_task
  | .UpdateConversationStateAfterTurn2 => update_conversation_state_after_turn2
  | .FinalizeResults => finalize_results_task
  | .StoreResults => store_results_task
  | .ShouldNotify => should_notify_choice
  | .Notify => notify_task
  | .WorkflowComplete => workflow_complete
  | .HandleInitError => handle_init_error
  | .HandleHistoricalFetchError => handle_historical_fetch_error
  | .HandleFetchImagesError => handle_fetch_images_error
  | .HandleBedrockErrorTurn1 => handle_bedrock_error_turn1_task
  | .HandleBedrockErrorTurn2 => handle_bedrock_error_turn2_task
  | .FinalizeWithErrorTurn1 => finalize_with_error_turn1_task
  | .FinalizeWithErrorTurn2 => finalize_with_error_turn2_task

/-- One event of the environment for one task invocation: the Lambda
returns a result, or fails (after the retries internal to the state),
or the execution-level timeout fires while the task is in flight. -/
inductive Ev where
  | ok (r : J)
  | fail
  | timeout

/-- How a run ended: the terminal Pass state produced a final output;
or an uncaught error (task failure with no catch, or a States.Runtime
template error) failed the execution; or the execution-level timeout
cut it; or the step budget ran out (never happens with enough fuel:
the graph is acyclic with paths of length at most 19). -/
inductive RunResult where
  | succeeded (final : J)
  | failed
  | timedOut
  | outOfFuel

/-- The error object a Catch writes at its result path (the construct
always uses catch result_path dollar.error). -/
def errInfo : J :=
  J.obj [("Error", J.str "States.TaskFailed"), ("Cause", J.str "task failed after retries")]

/-- Outcome of executing the body of one state: either the execution
moves to a successor state with an updated context, having consumed di
oracle events (1 for task states, 0 for Pass and Choice states), or the
execution halts with a final result. -/
inductive StepRes where
  | goto (t : SName) (c' : J) (di : Nat)
  | halt (r : RunResult)

/-- Execute the body of one state against the oracle.  A task state
first evaluates its payload (a States.Runtime failure there fails the
execution uncaught), then consumes one oracle event: a result is
written at the result path and control moves to the next state; a
failure moves to the Catch target with the error object at
dollar.error, or fails the execution when there is no Catch; a firing
of the execution-level timeout halts the execution as timed out.  A
Pass state evaluates its parameters and applies its result path.  A
Choice state compares the value read at its path and picks a
successor; a missing path or a type mismatch is a States.Runtime
failure. -/
def step (o : Nat → Ev) (i : Nat) (s : SName) (c : J) : StepRes :=
  match (stateDef s).kind with
  | .task payload rp catchTo =>
    match (match payload with | none => some c | some t => evalTmpl c t) with
    | none => .halt .failed
    | some _ =>
      match o i with
      | .ok r =>
        match (stateDef s).next with
        | some t => .goto t (setPath c rp r) 1
        | none => .halt (.succeeded (setPath c rp r))
      | .fail =>
        match catchTo with
        | some t => .goto t (setPath c ["error"] errInfo) 1
        | none => .halt .failed
      | .timeout => .halt .timedOut
  | .pass params rp =>
    match evalTmpl c params with
    | none => .halt .failed
    | some r =>
      let c' := match rp with
        | some p => setPath c p r
        | none => r
      match (stateDef s).next with
      | some t => .goto t c' 0
      | none => .halt (.succeeded c')
  | .choiceStr p v onT onF =>
    match readPath c p with
    | some (.str w) => .goto (if w = v then onT else onF) c 0
    | _ => .halt .failed
  | .choiceBool p v onT onF =>
    match readPath c p with
    | some (.bool b) => .goto (if b = v then onT else onF) c 0
    | _ => .halt .failed

/-- Small-step executor.  Arguments: oracle of task events, fuel, index
of the next oracle event, current state, current context.  Returns the
trace of entered states with their entry contexts, and the outcome. -/
def run (o : Nat → Ev) : Nat → Nat → SName → J → List (SName × J) × RunResult
  | 0, _, _, _ => ([], .outOfFuel)
  | fuel + 1, i, s, c =>
    match step o i s c with
    | .goto t c' di =>
      let rest := run o fuel (i + di) t c'
      ((s, c) :: rest.1, rest.2)
    | .halt r => ([(s, c)], r)

/-- A full execution of the state machine from its start state
(Initialize) on an initial context.  Fuel 24 exceeds the length of the
longest path through the acyclic graph (19 states). -/
def exec (o : Nat → Ev) (c0 : J) : List (SName × J) × RunResult :=
  run o 24 0 .Init c0

/-- The sequence of state names entered by an execution. -/
def execTrace (o : Nat → Ev) (c0 : J) : List SName :=
  (exec o c0).1.map Prod.fst

/-- Whether a run result is a normal termination of the state machine. -/
def isSucceeded : RunResult → Bool
  | .succeeded _ => true
  | _ => false

/-- A verification context as produced by a successful Initialize task
for a layout-vs-checking run. -/
def layoutVC : J :=
  J.obj
    [ ("verificationId", J.str "verif-1")
    , ("verificationType", J.str "layout_vs_checking")
    , ("notificationEnabled", J.bool true) ]

/-- A FetchImages task result that re-emits the verification context
and supplies the fields the conversation-state Pass needs. -/
def layoutFetchImagesResult : J :=
  J.obj
    [ ("verificationContext", layoutVC)
    , ("images", J.str "imgs")
    , ("historicalContext", J.obj []) ]

/-- Task results of a fully successful layout-vs-checking execution. -/
def happyEvents : List Ev :=
  [ .ok layoutVC
  , .ok layoutFetchImagesResult
  , .ok (J.str "sys")
  , .ok (J.str "p1")
  , .ok (J.str "resp1")
  , .ok (J.obj [("ref", J.str "a1")])
  , .ok (J.str "p2")
  , .ok (J.str "resp2")
  , .ok (J.obj [("chk", J.str "a2")])
  , .ok (J.obj
      [ ("verificationStatus", J.str "CORRECT")
      , ("confidenceScore", J.num 9)
      , ("discrepanciesCount", J.num 0) ])
  , .ok (J.obj [("resultImageUrl", J.str "url")])
  , .ok (J.str "sent") ]

/-- Oracle of the fully successful execution. -/
def happyOracle : Nat → Ev := fun i => happyEvents.getD i .fail

/-- Task results of an execution whose PrepareSystemPrompt stage fails
after FetchImages completed successfully. -/
def prepFailEvents : List Ev :=
  [ .ok layoutVC, .ok layoutFetchImagesResult, .fail ]

/-- Oracle of the PrepareSystemPrompt-failure execution. -/
def prepFailOracle : Nat → Ev := fun i => prepFailEvents.getD i .fail

/-- A context whose verification type carries the upper-case enum
spelling used by the spec. -/
def upperTypeCtx : J :=
  J.obj [("verificationContext", J.obj [("verificationType", J.str "PREVIOUS_VS_CURRENT")])]

/-- A context whose verification type carries the lower-case string the
construct actually compares against. -/
def lowerTypeCtx : J :=
  J.obj [("verificationContext", J.obj [("verificationType", J.str "previous_vs_current")])]

/-- An oracle in which the execution-level timeout fires at the first
task, truncating any run at its first task state. -/
def timeoutOracle : Nat → Ev := fun _ => .timeout

/-- Task results of an execution in which the FetchImages Lambda
returns an object that does not re-emit the verification context. -/
def wipeEvents : List Ev :=
  [ .ok (J.obj [("verificationType", J.str "layout_vs_checking")])
  , .ok (J.obj [("images", J.str "imgs")])
  , .timeout ]

/-- Oracle of the context-wiping execution. -/
def wipeOracle : Nat → Ev := fun i => wipeEvents.getD i .fail

/-- Modelled from the spec: the finalize_with_error Lambda is not under
src (lambda_construct.py only declares it, description "Creates partial
results on error"); section 4.5 of the spec states it synthesizes a
FinalResult with verificationStatus = FAILED.  An oracle event feeding a
FinalizeWithError task is assumed to satisfy this predicate. -/
def finalize_with_error_result (r : J) : Prop :=
  readPath r ["verificationStatus"] = some (J.str "FAILED")

/-- The context of an execution as it stands at entry of the Pass state
InitializeConversationState on a layout-vs-checking path. -/
def turnStartCtx : J :=
  J.obj
    [ ("verificationContext", layoutVC)
    , ("images", J.str "imgs")
    , ("systemPrompt", J.str "sys")
    , ("historicalContext", J.obj []) ]

/-- A FinalResult as the finalize_with_error Lambda is specified to
produce it. -/
def failedFinalResult : J := J.obj [("verificationStatus", J.str "FAILED")]

/-- A handle_bedrock_error Lambda result: it replaces the whole context
(result_path is the dollar root), so it re-emits the verification
context together with its error descriptor. -/
def bedrockErrorHandlerResult : J :=
  J.obj [("verificationContext", layoutVC), ("errorStage", J.str "execute_turn1")]

/-- Task results of an execution whose ExecuteTurn1 stage fails after
prompt preparation, followed by a successful recovery chain. -/
def c7t1Events : List Ev :=
  [ .ok (J.str "p1"), .fail, .ok bedrockErrorHandlerResult, .ok failedFinalResult ]

/-- Oracle of the ExecuteTurn1-failure execution, indexed from the
InitializeConversationState entry. -/
def c7t1Oracle : Nat → Ev := fun i => c7t1Events.getD i .fail

/-- The context of an execution as it stands right before the Pass
state UpdateConversationStateAfterTurn2 on a successful two-turn path. -/
def turn2Ctx : J :=
  J.obj
    [ ("verificationContext", layoutVC)
    , ("images", J.str "imgs")
    , ("systemPrompt", J.str "sys")
    , ("historicalContext", J.obj [])
    , ("currentPrompt", J.str "p2")
    , ("turn1Response", J.str "resp1")
    , ("turn2Response", J.str "resp2")
    , ("referenceAnalysis", J.obj [("ref", J.str "a1")])
    , ("checkingAnalysis", J.obj [("chk", J.str "a2")])
    , ("conversationState", J.obj
        [ ("currentTurn", J.num 1)
        , ("maxTurns", J.num 2)
        , ("history", J.arr [J.arr [], J.str "resp1"])
        , ("referenceAnalysis", J.obj [("ref", J.str "a1")])
        , ("checkingAnalysis", J.obj []) ]) ]

/-- The context of an execution as it stands right before the Pass
state UpdateConversationStateAfterTurn1 on a successful turn-1 path. -/
def turn1Ctx : J :=
  J.obj
    [ ("verificationContext", layoutVC)
    , ("images", J.str "imgs")
    , ("systemPrompt", J.str "sys")
    , ("historicalContext", J.obj [])
    , ("currentPrompt", J.str "p1")
    , ("turn1Response", J.str "resp1")
    , ("referenceAnalysis", J.obj [("ref", J.str "a1")])
    , ("conversationState", J.obj
        [ ("currentTurn", J.num 0)
        , ("maxTurns", J.num 2)
        , ("history", J.arr [])
        , ("referenceAnalysis", J.obj [])
        , ("checkingAnalysis", J.obj []) ]) ]

/-- Whether a state is a Lambda task state (the only states that can be
in flight when the execution-level timeout fires). -/
def isTaskState (s : SName) : Bool :=
  match (stateDef s).kind with
  | .task _ _ _ => true
  | _ => false
/-- Task results of an execution in which the 15-minute execution
timeout fires while PrepareSystemPrompt is in flight. -/
def timeoutAtPrepEvents : List Ev :=
  [ .ok layoutVC, .ok layoutFetchImagesResult, .timeout ]
/-- Oracle of the timed-out execution. -/
def timeoutAtPrepOracle : Nat → Ev := fun i => timeoutAtPrepEvents.getD i .fail
mutual

/-- The context paths a template reads. -/
def tmplReads : Tmpl → List (List String)
  | .lit _ => []
  | .jpath p => [p]
  | .statesArray a b => tmplReads a ++ tmplReads b
  | .tobj fs => fieldReads fs

/-- The context paths the field list of an object template reads. -/
def fieldReads : List (String × Tmpl) → List (List String)
  | [] => []
  | (_, t) :: rest => tmplReads t ++ fieldReads rest

end
/-- A context holding everything InitializeConversationState needs
except the historicalContext path, as on a layout-vs-checking run whose
fetch_images Lambda does not supply one. -/
def noHistCtx : J :=
  J.obj
    [ ("verificationContext", layoutVC)
    , ("images", J.str "imgs")
    , ("systemPrompt", J.str "sys") ]
/-- A handle_bedrock_error result whose re-emitted verification context
has notifications disabled. -/
def notifyOffHandlerResult : J :=
  J.obj [("verificationContext", J.obj [("notificationEnabled", J.bool false)])]
/-- Task results of a run from ExecuteTurn1 whose Bedrock call fails
and whose recovery chain then completes. -/
def c3Events : List Ev :=
  [ .fail, .ok notifyOffHandlerResult, .ok failedFinalResult, .ok (J.obj []) ]
/-- Oracle of the ExecuteTurn1-failure recovery run, indexed from the
ExecuteTurn1 entry. -/
def c3Oracle : Nat → Ev := fun i => c3Events.getD i .fail
/-- Task results of an execution with notifications enabled whose
FetchImages stage fails: the run ends at the early-failure marker and
never notifies, although the flag was true throughout. -/
def c8Events : List Ev := [ .ok layoutVC, .fail ]
/-- Oracle of the enabled-but-early-failing execution. -/
def c8Oracle : Nat → Ev := fun i => c8Events.getD i .fail

/-! Generic lemmas about the executor. -/


theorem run_goto (o : Nat → Ev) (fuel i : Nat) (s : SName) (c : J)
    (t : SName) (c' : J) (di : Nat) (h : step o i s c = .goto t c' di) :
    run o (fuel + 1) i s c =
      ((s, c) :: (run o fuel (i + di) t c').1, (run o fuel (i + di) t c').2) := by
  simp [run, h]

theorem run_halt (o : Nat → Ev) (fuel i : Nat) (s : SName) (c : J)
    (r : RunResult) (h : step o i s c = .halt r) :
    run o (fuel + 1) i s c = ([(s, c)], r) := by
  simp [run, h]

theorem run_head (o : Nat → Ev) (fuel i : Nat) (s : SName) (c : J) :
    ∃ tl, (run o (fuel + 1) i s c).1 = (s, c) :: tl := by
  cases h : step o i s c with
  | goto t c' di => exact ⟨_, by rw [run_goto o fuel i s c t c' di h]⟩
  | halt r => exact ⟨[], by rw [run_halt o fuel i s c r h]⟩

/-- Any suffix of a run trace starting at an entered state is itself the
trace of a run from that state, with the same final result. -/
theorem run_split (o : Nat → Ev) :
    ∀ fuel i s c xs p ys, (run o fuel i s c).1 = xs ++ p :: ys →
      ∃ fuel' i', fuel' ≤ fuel ∧ run o fuel' i' p.1 p.2 = (p :: ys, (run o fuel i s c).2) := by
  intro fuel
  induction fuel with
  | zero => intro i s c xs p ys h; simp [run] at h
  | succ n ih =>
    intro i s c xs p ys h
    cases hs : step o i s c with
    | halt r =>
      rw [run_halt o n i s c r hs] at h ⊢
      rcases xs with _ | ⟨q, xs'⟩
      · simp at h
        obtain ⟨h1, h2⟩ := h
        subst h1
        subst h2
        exact ⟨n + 1, i, le_refl _, by simp [run_halt o n i s c r hs]⟩
      · simp at h
    | goto t c' di =>
      rw [run_goto o n i s c t c' di hs] at h ⊢
      rcases xs with _ | ⟨q, xs'⟩
      · simp at h
        obtain ⟨h1, h2⟩ := h
        subst h1
        subst h2
        exact ⟨n + 1, i, le_refl _, by simp [run_goto o n i s c t c' di hs]⟩
      · simp at h
        obtain ⟨fuel', i', hle, heq⟩ := ih (i + di) t c' xs' p ys h.2
        exact ⟨fuel', i', Nat.le_succ_of_le hle, heq⟩

/-- Two consecutive entries of a run trace are related by a goto step of
the machine. -/
theorem run_adjacent (o : Nat → Ev) :
    ∀ fuel i s c xs a b ys, (run o fuel i s c).1 = xs ++ a :: b :: ys →
      ∃ j di, step o j a.1 a.2 = .goto b.1 b.2 di := by
  intro fuel
  induction fuel with
  | zero => intro i s c xs a b ys h; simp [run] at h
  | succ n ih =>
    intro i s c xs a b ys h
    cases hs : step o i s c with
    | halt r =>
      rw [run_halt o n i s c r hs] at h
      rcases xs with _ | ⟨q, xs'⟩ <;> simp at h
    | goto t c' di =>
      rw [run_goto o n i s c t c' di hs] at h
      rcases xs with _ | ⟨q, xs'⟩
      · simp at h
        obtain ⟨ha, h2⟩ := h
        subst ha
        rcases n with _ | m
        · simp [run] at h2
        · obtain ⟨tl, htl⟩ := run_head o m (i + di) t c'
          rw [htl] at h2
          injection h2 with hb hys
          cases hb
          exact ⟨i, di, hs⟩
      · simp at h
        exact ih (i + di) t c' xs' a b ys h.2

/-- A run that does not end for lack of fuel ends because its last
entered state halted with the run's final result. -/
theorem run_last_halt (o : Nat → Ev) :
    ∀ fuel i s c, (run o fuel i s c).2 ≠ .outOfFuel →
      ∃ pre a j, (run o fuel i s c).1 = pre ++ [a] ∧
        step o j a.1 a.2 = .halt ((run o fuel i s c).2) := by
  intro fuel
  induction fuel with
  | zero => intro i s c h; simp [run] at h
  | succ n ih =>
    intro i s c h
    cases hs : step o i s c with
    | halt r =>
      rw [run_halt o n i s c r hs] at h ⊢
      exact ⟨[], (s, c), i, by simp, hs⟩
    | goto t c' di =>
      rw [run_goto o n i s c t c' di hs] at h ⊢
      obtain ⟨pre, a, j, h1, h2⟩ := ih (i + di) t c' h
      exact ⟨(s, c) :: pre, a, j, by simp [h1], h2⟩

theorem stepEq_Init (o : Nat → Ev) (i : Nat) (c : J) :
    step o i .Init c =
      (match o i with
       | .ok r => .goto .CheckVerificationType (setPath c ["verificationContext"] r) 1
       | .fail => .goto .HandleInitError (setPath c ["error"] errInfo) 1
       | .timeout => .halt .timedOut) := rfl

theorem stepEq_FetchHistoricalVerification (o : Nat → Ev) (i : Nat) (c : J) :
    step o i .FetchHistoricalVerification c =
      (match o i with
       | .ok r => .goto .FetchImages (setPath c ["historicalContext"] r) 1
       | .fail => .goto .HandleHistoricalFetchError (setPath c ["error"] errInfo) 1
       | .timeout => .halt .timedOut) := rfl

theorem stepEq_FetchImages (o : Nat → Ev) (i : Nat) (c : J) :
    step o i .FetchImages c =
      (match o i with
       | .ok r => .goto .PrepareSystemPrompt r 1
       | .fail => .goto .HandleFetchImagesError (setPath c ["error"] errInfo) 1
       | .timeout => .halt .timedOut) := rfl

theorem stepEq_PrepareSystemPrompt (o : Nat → Ev) (i : Nat) (c : J) :
    step o i .PrepareSystemPrompt c =
      (match o i with
       | .ok r => .goto .InitConversationState (setPath c ["systemPrompt"] r) 1
       | .fail => .halt .failed
       | .timeout => .halt .timedOut) := rfl

theorem stepEq_InitConversationState (o : Nat → Ev) (i : Nat) (c : J) :
    step o i .InitConversationState c =
      (match evalTmpl c init_conversation_state_params with
       | none => .halt .failed
       | some r => .goto .PrepareTurn1Prompt r 0) := rfl

theorem stepEq_PrepareTurn1Prompt (o : Nat → Ev) (i : Nat) (c : J) :
    step o i .PrepareTurn1Prompt c =
      (match evalTmpl c prepare_turn1_prompt_payload with
       | none => .halt .failed
       | some _ =>
         match o i with
         | .ok r => .goto .ExecuteTurn1 (setPath c ["currentPrompt"] r) 1
         | .fail => .halt .failed
         | .timeout => .halt .timedOut) := rfl

theorem stepEq_ExecuteTurn1 (o : Nat → Ev) (i : Nat) (c : J) :
    step o i .ExecuteTurn1 c =
      (match o i with
       | .ok r => .goto .ProcessTurn1Response (setPath c ["turn1Response"] r) 1
       | .fail => .goto .HandleBedrockErrorTurn1 (setPath c ["error"] errInfo) 1
       | .timeout => .halt .timedOut) := rfl

theorem stepEq_ProcessTurn1Response (o : Nat → Ev) (i : Nat) (c : J) :
    step o i .ProcessTurn1Response c =
      (match o i with
       | .ok r => .goto .UpdateConversationStateAfterTurn1 (setPath c ["referenceAnalysis"] r) 1
       | .fail => .halt .failed
       | .timeout => .halt .timedOut) := rfl

theorem stepEq_UpdateConversationStateAfterTurn1 (o : Nat → Ev) (i : Nat) (c : J) :
    step o i .UpdateConversationStateAfterTurn1 c =
      (match evalTmpl c update_conversation_state_after_turn1_params with
       | none => .halt .failed
       | some r => .goto .PrepareTurn2Prompt r 0) := rfl

theorem stepEq_PrepareTurn2Prompt (o : Nat → Ev) (i : Nat) (c : J) :
    step o i .PrepareTurn2Prompt c =
      (match evalTmpl c prepare_turn2_prompt_payload with
       | none => .halt .failed
       | some _ =>
         match o i with
         | .ok r => .goto .ExecuteTurn2 (setPath c ["currentPrompt"] r) 1
         | .fail => .halt .failed
         | .timeout => .halt .timedOut) := rfl

theorem stepEq_ExecuteTurn2 (o : Nat → Ev) (i : Nat) (c : J) :
    step o i .ExecuteTurn2 c =
      (match o i with
       | .ok r => .goto .ProcessTurn2Response (setPath c ["turn2Response"] r) 1
       | .fail => .goto .HandleBedrockErrorTurn2 (setPath c ["error"] errInfo) 1
       | .timeout => .halt .timedOut) := rfl

theorem stepEq_ProcessTurn2Response (o : Nat → Ev) (i : Nat) (c : J) :
    step o i .ProcessTurn2Response c =
      (match o i with
       | .ok r => .goto .UpdateConversationStateAfterTurn2 (setPath c ["checkingAnalysis"] r) 1
       | .fail => .halt .failed
       | .timeout => .halt .timedOut) := rfl

theorem stepEq_UpdateConversationStateAfterTurn2 (o : Nat → Ev) (i : Nat) (c : J) :
    step o i .UpdateConversationStateAfterTurn2 c =
      (match evalTmpl c update_conversation_state_after_turn2_params with
       | none => .halt .failed
       | some r => .goto .FinalizeResults r 0) := rfl

theorem stepEq_FinalizeResults (o : Nat → Ev) (i : Nat) (c : J) :
    step o i .FinalizeResults c =
      (match o i with
       | .ok r => .goto .StoreResults (setPath c ["finalResults"] r) 1
       | .fail => .halt .failed
       | .timeout => .halt .timedOut) := rfl

theorem stepEq_StoreResults (o : Nat → Ev) (i : Nat) (c : J) :
    step o i .StoreResults c =
      (match o i with
       | .ok r => .goto .ShouldNotify (setPath c ["storageResult"] r) 1
       | .fail => .halt .failed
       | .timeout => .halt .timedOut) := rfl

theorem stepEq_Notify (o : Nat → Ev) (i : Nat) (c : J) :
    step o i .Notify c =
      (match o i with
       | .ok r => .goto .WorkflowComplete (setPath c ["notificationResult"] r) 1
       | .fail => .halt .failed
       | .timeout => .halt .timedOut) := rfl

theorem stepEq_WorkflowComplete (o : Nat → Ev) (i : Nat) (c : J) :
    step o i .WorkflowComplete c =
      (match evalTmpl c workflow_complete_params with
       | none => .halt .failed
       | some r => .halt (.succeeded r)) := rfl

theorem stepEq_HandleInitError (o : Nat → Ev) (i : Nat) (c : J) :
    step o i .HandleInitError c =
      .halt (.succeeded (setPath c ["error"] (J.obj
        [ ("status", J.str "FAILED")
        , ("error", J.str "Failed to initialize verification process") ]))) := rfl

theorem stepEq_HandleHistoricalFetchError (o : Nat → Ev) (i : Nat) (c : J) :
    step o i .HandleHistoricalFetchError c =
      .halt (.succeeded (setPath c ["error"] (J.obj
        [ ("status", J.str "FAILED")
        , ("error", J.str "Failed to retrieve historical verification data") ]))) := rfl

theorem stepEq_HandleFetchImagesError (o : Nat → Ev) (i : Nat) (c : J) :
    step o i .HandleFetchImagesError c =
      .halt (.succeeded (setPath c ["error"] (J.obj
        [ ("status", J.str "FAILED")
        , ("error", J.str "Failed to fetch images or metadata") ]))) := rfl

theorem stepEq_HandleBedrockErrorTurn1 (o : Nat → Ev) (i : Nat) (c : J) :
    step o i .HandleBedrockErrorTurn1 c =
      (match o i with
       | .ok r => .goto .FinalizeWithErrorTurn1 r 1
       | .fail => .halt .failed
       | .timeout => .halt .timedOut) := rfl

theorem stepEq_HandleBedrockErrorTurn2 (o : Nat → Ev) (i : Nat) (c : J) :
    step o i .HandleBedrockErrorTurn2 c =
      (match o i with
       | .ok r => .goto .FinalizeWithErrorTurn2 r 1
       | .fail => .halt .failed
       | .timeout => .halt .timedOut) := rfl

theorem stepEq_FinalizeWithErrorTurn1 (o : Nat → Ev) (i : Nat) (c : J) :
    step o i .FinalizeWithErrorTurn1 c =
      (match o i with
       | .ok r => .goto .StoreResults (setPath c ["finalResults"] r) 1
       | .fail => .halt .failed
       | .timeout => .halt .timedOut) := rfl

theorem stepEq_FinalizeWithErrorTurn2 (o : Nat → Ev) (i : Nat) (c : J) :
    step o i .FinalizeWithErrorTurn2 c =
      (match o i with
       | .ok r => .goto .StoreResults (setPath c ["finalResults"] r) 1
       | .fail => .halt .failed
       | .timeout => .halt .timedOut) := rfl

theorem stepEq_CheckVerificationType (o : Nat → Ev) (i : Nat) (c : J) :
    step o i .CheckVerificationType c =
      (match readPath c ["verificationContext", "verificationType"] with
       | some (.str w) =>
         .goto (if w = "previous_vs_current" then .FetchHistoricalVerification else .FetchImages) c 0
       | _ => .halt .failed) := rfl

theorem stepEq_ShouldNotify (o : Nat → Ev) (i : Nat) (c : J) :
    step o i .ShouldNotify c =
      (match readPath c ["verificationContext", "notificationEnabled"] with
       | some (.bool b) => .goto (if b = true then .Notify else .WorkflowComplete) c 0
       | _ => .halt .failed) := rfl


end VMVerif

namespace VMVerif

theorem storeCount_WorkflowComplete (o : Nat → Ev) :
    ∀ fuel i c, ((run o fuel i .WorkflowComplete c).1.map Prod.fst).count .StoreResults = 0 := by
  intro fuel i c
  cases fuel with
  | zero => simp [run]
  | succ n =>
    cases he : evalTmpl c workflow_complete_params <;>
      simp [run, stepEq_WorkflowComplete, he]

theorem storeCount_Notify (o : Nat → Ev) :
    ∀ fuel i c, ((run o fuel i .Notify c).1.map Prod.fst).count .StoreResults = 0 := by
  intro fuel i c
  cases fuel with
  | zero => simp [run]
  | succ n =>
    cases ho : o i <;>
      simp [run, stepEq_Notify, ho, storeCount_WorkflowComplete]

theorem storeCount_ShouldNotify (o : Nat → Ev) :
    ∀ fuel i c, ((run o fuel i .ShouldNotify c).1.map Prod.fst).count .StoreResults = 0 := by
  intro fuel i c
  cases fuel with
  | zero => simp [run]
  | succ n =>
    rcases hr : readPath c ["verificationContext", "notificationEnabled"] with _ | v
    · simp [run, stepEq_ShouldNotify, hr]
    · rcases v with _ | b | m | w | xs | fs
      · simp [run, stepEq_ShouldNotify, hr]
      · cases b <;>
          simp [run, stepEq_ShouldNotify, hr, storeCount_Notify, storeCount_WorkflowComplete]
      · simp [run, stepEq_ShouldNotify, hr]
      · simp [run, stepEq_ShouldNotify, hr]
      · simp [run, stepEq_ShouldNotify, hr]
      · simp [run, stepEq_ShouldNotify, hr]

theorem storePhi_StoreResults (o : Nat → Ev) :
    ∀ fuel i c,
      (∀ out, (run o fuel i .StoreResults c).2 = .succeeded out →
        ((run o fuel i .StoreResults c).1.map Prod.fst).count .StoreResults = 1) ∧
      ((run o fuel i .StoreResults c).1.map Prod.fst).count .StoreResults ≤ 1 := by
  intro fuel i c
  cases fuel with
  | zero => simp [run]
  | succ n =>
    cases ho : o i <;>
      simp [run, stepEq_StoreResults, ho, storeCount_ShouldNotify]

end VMVerif

namespace VMVerif

theorem storePhi_FinalizeWithErrorTurn1 (o : Nat → Ev) :
    ∀ fuel i c,
      (∀ out, (run o fuel i .FinalizeWithErrorTurn1 c).2 = .succeeded out →
        ((run o fuel i .FinalizeWithErrorTurn1 c).1.map Prod.fst).count .StoreResults = 1) ∧
      ((run o fuel i .FinalizeWithErrorTurn1 c).1.map Prod.fst).count .StoreResults ≤ 1 := by
  intro fuel i c
  cases fuel with
  | zero => simp [run]
  | succ n =>
    cases ho : o i with
    | ok r =>
      simp [run, stepEq_FinalizeWithErrorTurn1, ho]
      constructor
      · intro out h
        exact (storePhi_StoreResults o n (i + 1) _).1 out h
      · exact (storePhi_StoreResults o n (i + 1) _).2
    | fail => simp [run, stepEq_FinalizeWithErrorTurn1, ho]
    | timeout => simp [run, stepEq_FinalizeWithErrorTurn1, ho]

theorem storePhi_FinalizeWithErrorTurn2 (o : Nat → Ev) :
    ∀ fuel i c,
      (∀ out, (run o fuel i .FinalizeWithErrorTurn2 c).2 = .succeeded out →
        ((run o fuel i .FinalizeWithErrorTurn2 c).1.map Prod.fst).count .StoreResults = 1) ∧
      ((run o fuel i .FinalizeWithErrorTurn2 c).1.map Prod.fst).count .StoreResults ≤ 1 := by
  intro fuel i c
  cases fuel with
  | zero => simp [run]
  | succ n =>
    cases ho : o i with
    | ok r =>
      simp [run, stepEq_FinalizeWithErrorTurn2, ho]
      constructor
      · intro out h
        exact (storePhi_StoreResults o n (i + 1) _).1 out h
      · exact (storePhi_StoreResults o n (i + 1) _).2
    | fail => simp [run, stepEq_FinalizeWithErrorTurn2, ho]
    | timeout => simp [run, stepEq_FinalizeWithErrorTurn2, ho]

theorem storePhi_HandleBedrockErrorTurn1 (o : Nat → Ev) :
    ∀ fuel i c,
      (∀ out, (run o fuel i .HandleBedrockErrorTurn1 c).2 = .succeeded out →
        ((run o fuel i .HandleBedrockErrorTurn1 c).1.map Prod.fst).count .StoreResults = 1) ∧
      ((run o fuel i .HandleBedrockErrorTurn1 c).1.map Prod.fst).count .StoreResults ≤ 1 := by
  intro fuel i c
  cases fuel with
  | zero => simp [run]
  | succ n =>
    cases ho : o i with
    | ok r =>
      simp [run, stepEq_HandleBedrockErrorTurn1, ho]
      constructor
      · intro out h
        exact (storePhi_FinalizeWithErrorTurn1 o n (i + 1) _).1 out h
      · exact (storePhi_FinalizeWithErrorTurn1 o n (i + 1) _).2
    | fail => simp [run, stepEq_HandleBedrockErrorTurn1, ho]
    | timeout => simp [run, stepEq_HandleBedrockErrorTurn1, ho]

theorem storePhi_HandleBedrockErrorTurn2 (o : Nat → Ev) :
    ∀ fuel i c,
      (∀ out, (run o fuel i .HandleBedrockErrorTurn2 c).2 = .succeeded out →
        ((run o fuel i .HandleBedrockErrorTurn2 c).1.map Prod.fst).count .StoreResults = 1) ∧
      ((run o fuel i .HandleBedrockErrorTurn2 c).1.map Prod.fst).count .StoreResults ≤ 1 := by
  intro fuel i c
  cases fuel with
  | zero => simp [run]
  | succ n =>
    cases ho : o i with
    | ok r =>
      simp [run, stepEq_HandleBedrockErrorTurn2, ho]
      constructor
      · intro out h
        exact (storePhi_FinalizeWithErrorTurn2 o n (i + 1) _).1 out h
      · exact (storePhi_FinalizeWithErrorTurn2 o n (i + 1) _).2
    | fail => simp [run, stepEq_HandleBedrockErrorTurn2, ho]
    | timeout => simp [run, stepEq_HandleBedrockErrorTurn2, ho]

theorem storePhi_FinalizeResults (o : Nat → Ev) :
    ∀ fuel i c,
      (∀ out, (run o fuel i .FinalizeResults c).2 = .succeeded out →
        ((run o fuel i .FinalizeResults c).1.map Prod.fst).count .StoreResults = 1) ∧
      ((run o fuel i .FinalizeResults c).1.map Prod.fst).count .StoreResults ≤ 1 := by
  intro fuel i c
  cases fuel with
  | zero => simp [run]
  | succ n =>
    cases ho : o i with
    | ok r =>
      simp [run, stepEq_FinalizeResults, ho]
      constructor
      · intro out h
        exact (storePhi_StoreResults o n (i + 1) _).1 out h
      · exact (storePhi_StoreResults o n (i + 1) _).2
    | fail => simp [run, stepEq_FinalizeResults, ho]
    | timeout => simp [run, stepEq_FinalizeResults, ho]

theorem storePhi_UpdateConversationStateAfterTurn2 (o : Nat → Ev) :
    ∀ fuel i c,
      (∀ out, (run o fuel i .UpdateConversationStateAfterTurn2 c).2 = .succeeded out →
        ((run o fuel i .UpdateConversationStateAfterTurn2 c).1.map Prod.fst).count .StoreResults = 1) ∧
      ((run o fuel i .UpdateConversationStateAfterTurn2 c).1.map Prod.fst).count .StoreResults ≤ 1 := by
  intro fuel i c
  cases fuel with
  | zero => simp [run]
  | succ n =>
    cases he : evalTmpl c update_conversation_state_after_turn2_params with
    | none => simp [run, stepEq_UpdateConversationStateAfterTurn2, he]
    | some r =>
      simp [run, stepEq_UpdateConversationStateAfterTurn2, he]
      constructor
      · intro out h
        exact (storePhi_FinalizeResults o n i _).1 out h
      · exact (storePhi_FinalizeResults o n i _).2

theorem storePhi_ProcessTurn2Response (o : Nat → Ev) :
    ∀ fuel i c,
      (∀ out, (run o fuel i .ProcessTurn2Response c).2 = .succeeded out →
        ((run o fuel i .ProcessTurn2Response c).1.map Prod.fst).count .StoreResults = 1) ∧
      ((run o fuel i .ProcessTurn2Response c).1.map Prod.fst).count .StoreResults ≤ 1 := by
  intro fuel i c
  cases fuel with
  | zero => simp [run]
  | succ n =>
    cases ho : o i with
    | ok r =>
      simp [run, stepEq_ProcessTurn2Response, ho]
      constructor
      · intro out h
        exact (storePhi_UpdateConversationStateAfterTurn2 o n (i + 1) _).1 out h
      · exact (storePhi_UpdateConversationStateAfterTurn2 o n (i + 1) _).2
    | fail => simp [run, stepEq_ProcessTurn2Response, ho]
    | timeout => simp [run, stepEq_ProcessTurn2Response, ho]

theorem storePhi_ExecuteTurn2 (o : Nat → Ev) :
    ∀ fuel i c,
      (∀ out, (run o fuel i .ExecuteTurn2 c).2 = .succeeded out →
        ((run o fuel i .ExecuteTurn2 c).1.map Prod.fst).count .StoreResults = 1) ∧
      ((run o fuel i .ExecuteTurn2 c).1.map Prod.fst).count .StoreResults ≤ 1 := by
  intro fuel i c
  cases fuel with
  | zero => simp [run]
  | succ n =>
    cases ho : o i with
    | ok r =>
      simp [run, stepEq_ExecuteTurn2, ho]
      constructor
      · intro out h
        exact (storePhi_ProcessTurn2Response o n (i + 1) _).1 out h
      · exact (storePhi_ProcessTurn2Response o n (i + 1) _).2
    | fail =>
      simp [run, stepEq_ExecuteTurn2, ho]
      constructor
      · intro out h
        exact (storePhi_HandleBedrockErrorTurn2 o n (i + 1) _).1 out h
      · exact (storePhi_HandleBedrockErrorTurn2 o n (i + 1) _).2
    | timeout => simp [run, stepEq_ExecuteTurn2, ho]

theorem storePhi_PrepareTurn2Prompt (o : Nat → Ev) :
    ∀ fuel i c,
      (∀ out, (run o fuel i .PrepareTurn2Prompt c).2 = .succeeded out →
        ((run o fuel i .PrepareTurn2Prompt c).1.map Prod.fst).count .StoreResults = 1) ∧
      ((run o fuel i .PrepareTurn2Prompt c).1.map Prod.fst).count .StoreResults ≤ 1 := by
  intro fuel i c
  cases fuel with
  | zero => simp [run]
  | succ n =>
    cases he : evalTmpl c prepare_turn2_prompt_payload with
    | none => simp [run, stepEq_PrepareTurn2Prompt, he]
    | some u =>
      cases ho : o i with
      | ok r =>
        simp [run, stepEq_PrepareTurn2Prompt, he, ho]
        constructor
        · intro out h
          exact (storePhi_ExecuteTurn2 o n (i + 1) _).1 out h
        · exact (storePhi_ExecuteTurn2 o n (i + 1) _).2
      | fail => simp [run, stepEq_PrepareTurn2Prompt, he, ho]
      | timeout => simp [run, stepEq_PrepareTurn2Prompt, he, ho]

theorem storePhi_UpdateConversationStateAfterTurn1 (o : Nat → Ev) :
    ∀ fuel i c,
      (∀ out, (run o fuel i .UpdateConversationStateAfterTurn1 c).2 = .succeeded out →
        ((run o fuel i .UpdateConversationStateAfterTurn1 c).1.map Prod.fst).count .StoreResults = 1) ∧
      ((run o fuel i .UpdateConversationStateAfterTurn1 c).1.map Prod.fst).count .StoreResults ≤ 1 := by
  intro fuel i c
  cases fuel with
  | zero => simp [run]
  | succ n =>
    cases he : evalTmpl c update_conversation_state_after_turn1_params with
    | none => simp [run, stepEq_UpdateConversationStateAfterTurn1, he]
    | some r =>
      simp [run, stepEq_UpdateConversationStateAfterTurn1, he]
      constructor
      · intro out h
        exact (storePhi_PrepareTurn2Prompt o n i _).1 out h
      · exact (storePhi_PrepareTurn2Prompt o n i _).2

theorem storePhi_ProcessTurn1Response (o : Nat → Ev) :
    ∀ fuel i c,
      (∀ out, (run o fuel i .ProcessTurn1Response c).2 = .succeeded out →
        ((run o fuel i .ProcessTurn1Response c).1.map Prod.fst).count .StoreResults = 1) ∧
      ((run o fuel i .ProcessTurn1Response c).1.map Prod.fst).count .StoreResults ≤ 1 := by
  intro fuel i c
  cases fuel with
  | zero => simp [run]
  | succ n =>
    cases ho : o i with
    | ok r =>
      simp [run, stepEq_ProcessTurn1Response, ho]
      constructor
      · intro out h
        exact (storePhi_UpdateConversationStateAfterTurn1 o n (i + 1) _).1 out h
      · exact (storePhi_UpdateConversationStateAfterTurn1 o n (i + 1) _).2
    | fail => simp [run, stepEq_ProcessTurn1Response, ho]
    | timeout => simp [run, stepEq_ProcessTurn1Response, ho]

theorem storePhi_ExecuteTurn1 (o : Nat → Ev) :
    ∀ fuel i c,
      (∀ out, (run o fuel i .ExecuteTurn1 c).2 = .succeeded out →
        ((run o fuel i .ExecuteTurn1 c).1.map Prod.fst).count .StoreResults = 1) ∧
      ((run o fuel i .ExecuteTurn1 c).1.map Prod.fst).count .StoreResults ≤ 1 := by
  intro fuel i c
  cases fuel with
  | zero => simp [run]
  | succ n =>
    cases ho : o i with
    | ok r =>
      simp [run, stepEq_ExecuteTurn1, ho]
      constructor
      · intro out h
        exact (storePhi_ProcessTurn1Response o n (i + 1) _).1 out h
      · exact (storePhi_ProcessTurn1Response o n (i + 1) _).2
    | fail =>
      simp [run, stepEq_ExecuteTurn1, ho]
      constructor
      · intro out h
        exact (storePhi_HandleBedrockErrorTurn1 o n (i + 1) _).1 out h
      · exact (storePhi_HandleBedrockErrorTurn1 o n (i + 1) _).2
    | timeout => simp [run, stepEq_ExecuteTurn1, ho]

theorem storePhi_PrepareTurn1Prompt (o : Nat → Ev) :
    ∀ fuel i c,
      (∀ out, (run o fuel i .PrepareTurn1Prompt c).2 = .succeeded out →
        ((run o fuel i .PrepareTurn1Prompt c).1.map Prod.fst).count .StoreResults = 1) ∧
      ((run o fuel i .PrepareTurn1Prompt c).1.map Prod.fst).count .StoreResults ≤ 1 := by
  intro fuel i c
  cases fuel with
  | zero => simp [run]
  | succ n =>
    cases he : evalTmpl c prepare_turn1_prompt_payload with
    | none => simp [run, stepEq_PrepareTurn1Prompt, he]
    | some u =>
      cases ho : o i with
      | ok r =>
        simp [run, stepEq_PrepareTurn1Prompt, he, ho]
        constructor
        · intro out h
          exact (storePhi_ExecuteTurn1 o n (i + 1) _).1 out h
        · exact (storePhi_ExecuteTurn1 o n (i + 1) _).2
      | fail => simp [run, stepEq_PrepareTurn1Prompt, he, ho]
      | timeout => simp [run, stepEq_PrepareTurn1Prompt, he, ho]

theorem storePhi_InitConversationState (o : Nat → Ev) :
    ∀ fuel i c,
      (∀ out, (run o fuel i .InitConversationState c).2 = .succeeded out →
        ((run o fuel i .InitConversationState c).1.map Prod.fst).count .StoreResults = 1) ∧
      ((run o fuel i .InitConversationState c).1.map Prod.fst).count .StoreResults ≤ 1 := by
  intro fuel i c
  cases fuel with
  | zero => simp [run]
  | succ n =>
    cases he : evalTmpl c init_conversation_state_params with
    | none => simp [run, stepEq_InitConversationState, he]
    | some r =>
      simp [run, stepEq_InitConversationState, he]
      constructor
      · intro out h
        exact (storePhi_PrepareTurn1Prompt o n i _).1 out h
      · exact (storePhi_PrepareTurn1Prompt o n i _).2

theorem storePhi_PrepareSystemPrompt (o : Nat → Ev) :
    ∀ fuel i c,
      (∀ out, (run o fuel i .PrepareSystemPrompt c).2 = .succeeded out →
        ((run o fuel i .PrepareSystemPrompt c).1.map Prod.fst).count .StoreResults = 1) ∧
      ((run o fuel i .PrepareSystemPrompt c).1.map Prod.fst).count .StoreResults ≤ 1 := by
  intro fuel i c
  cases fuel with
  | zero => simp [run]
  | succ n =>
    cases ho : o i with
    | ok r =>
      simp [run, stepEq_PrepareSystemPrompt, ho]
      constructor
      · intro out h
        exact (storePhi_InitConversationState o n (i + 1) _).1 out h
      · exact (storePhi_InitConversationState o n (i + 1) _).2
    | fail => simp [run, stepEq_PrepareSystemPrompt, ho]
    | timeout => simp [run, stepEq_PrepareSystemPrompt, ho]

end VMVerif

namespace VMVerif

theorem storeNotMem_HandleInitError (o : Nat → Ev) (fuel i : Nat) (c : J) :
    .PrepareSystemPrompt ∉ (run o fuel i .HandleInitError c).1.map Prod.fst ∧
    ((run o fuel i .HandleInitError c).1.map Prod.fst).count .StoreResults = 0 := by
  cases fuel with
  | zero => simp [run]
  | succ n => simp [run, stepEq_HandleInitError]

theorem storeNotMem_HandleHistoricalFetchError (o : Nat → Ev) (fuel i : Nat) (c : J) :
    .PrepareSystemPrompt ∉ (run o fuel i .HandleHistoricalFetchError c).1.map Prod.fst ∧
    ((run o fuel i .HandleHistoricalFetchError c).1.map Prod.fst).count .StoreResults = 0 := by
  cases fuel with
  | zero => simp [run]
  | succ n => simp [run, stepEq_HandleHistoricalFetchError]

theorem storeNotMem_HandleFetchImagesError (o : Nat → Ev) (fuel i : Nat) (c : J) :
    .PrepareSystemPrompt ∉ (run o fuel i .HandleFetchImagesError c).1.map Prod.fst ∧
    ((run o fuel i .HandleFetchImagesError c).1.map Prod.fst).count .StoreResults = 0 := by
  cases fuel with
  | zero => simp [run]
  | succ n => simp [run, stepEq_HandleFetchImagesError]

theorem storePsi_FetchImages (o : Nat → Ev) :
    ∀ fuel i c,
      (∀ out, (run o fuel i .FetchImages c).2 = .succeeded out →
        .PrepareSystemPrompt ∈ (run o fuel i .FetchImages c).1.map Prod.fst →
        ((run o fuel i .FetchImages c).1.map Prod.fst).count .StoreResults = 1) ∧
      ((run o fuel i .FetchImages c).1.map Prod.fst).count .StoreResults ≤ 1 := by
  intro fuel i c
  cases fuel with
  | zero => simp [run]
  | succ n =>
    cases ho : o i with
    | ok r =>
      simp [run, stepEq_FetchImages, ho]
      constructor
      · intro out h cx hm
        exact (storePhi_PrepareSystemPrompt o n (i + 1) _).1 out h
      · exact (storePhi_PrepareSystemPrompt o n (i + 1) _).2
    | fail =>
      simp [run, stepEq_FetchImages, ho]
      constructor
      · intro out h cx hm
        exact absurd (List.mem_map_of_mem Prod.fst hm)
          (storeNotMem_HandleFetchImagesError o n (i + 1) _).1
      · have h0 := (storeNotMem_HandleFetchImagesError o n (i + 1) (setPath c ["error"] errInfo)).2
        simp [h0]
    | timeout => simp [run, stepEq_FetchImages, ho]

theorem storePsi_FetchHistoricalVerification (o : Nat → Ev) :
    ∀ fuel i c,
      (∀ out, (run o fuel i .FetchHistoricalVerification c).2 = .succeeded out →
        .PrepareSystemPrompt ∈ (run o fuel i .FetchHistoricalVerification c).1.map Prod.fst →
        ((run o fuel i .FetchHistoricalVerification c).1.map Prod.fst).count .StoreResults = 1) ∧
      ((run o fuel i .FetchHistoricalVerification c).1.map Prod.fst).count .StoreResults ≤ 1 := by
  intro fuel i c
  cases fuel with
  | zero => simp [run]
  | succ n =>
    cases ho : o i with
    | ok r =>
      simp [run, stepEq_FetchHistoricalVerification, ho]
      constructor
      · intro out h cx hm
        exact (storePsi_FetchImages o n (i + 1) _).1 out h (List.mem_map_of_mem Prod.fst hm)
      · exact (storePsi_FetchImages o n (i + 1) _).2
    | fail =>
      simp [run, stepEq_FetchHistoricalVerification, ho]
      constructor
      · intro out h cx hm
        exact absurd (List.mem_map_of_mem Prod.fst hm)
          (storeNotMem_HandleHistoricalFetchError o n (i + 1) _).1
      · have h0 := (storeNotMem_HandleHistoricalFetchError o n (i + 1) (setPath c ["error"] errInfo)).2
        simp [h0]
    | timeout => simp [run, stepEq_FetchHistoricalVerification, ho]

theorem storePsi_CheckVerificationType (o : Nat → Ev) :
    ∀ fuel i c,
      (∀ out, (run o fuel i .CheckVerificationType c).2 = .succeeded out →
        .PrepareSystemPrompt ∈ (run o fuel i .CheckVerificationType c).1.map Prod.fst →
        ((run o fuel i .CheckVerificationType c).1.map Prod.fst).count .StoreResults = 1) ∧
      ((run o fuel i .CheckVerificationType c).1.map Prod.fst).count .StoreResults ≤ 1 := by
  intro fuel i c
  cases fuel with
  | zero => simp [run]
  | succ n =>
    rcases hr : readPath c ["verificationContext", "verificationType"] with _ | v
    · simp [run, stepEq_CheckVerificationType, hr]
    · rcases v with _ | b | m | w | xs | fs
      · simp [run, stepEq_CheckVerificationType, hr]
      · simp [run, stepEq_CheckVerificationType, hr]
      · simp [run, stepEq_CheckVerificationType, hr]
      · by_cases hw : w = "previous_vs_current"
        · simp [run, stepEq_CheckVerificationType, hr, hw]
          constructor
          · intro out h cx hm
            exact (storePsi_FetchHistoricalVerification o n i _).1 out h
              (List.mem_map_of_mem Prod.fst hm)
          · exact (storePsi_FetchHistoricalVerification o n i _).2
        · simp [run, stepEq_CheckVerificationType, hr, hw]
          constructor
          · intro out h cx hm
            exact (storePsi_FetchImages o n i _).1 out h (List.mem_map_of_mem Prod.fst hm)
          · exact (storePsi_FetchImages o n i _).2
      · simp [run, stepEq_CheckVerificationType, hr]
      · simp [run, stepEq_CheckVerificationType, hr]

theorem storePsi_Init (o : Nat → Ev) :
    ∀ fuel i c,
      (∀ out, (run o fuel i .Init c).2 = .succeeded out →
        .PrepareSystemPrompt ∈ (run o fuel i .Init c).1.map Prod.fst →
        ((run o fuel i .Init c).1.map Prod.fst).count .StoreResults = 1) ∧
      ((run o fuel i .Init c).1.map Prod.fst).count .StoreResults ≤ 1 := by
  intro fuel i c
  cases fuel with
  | zero => simp [run]
  | succ n =>
    cases ho : o i with
    | ok r =>
      simp [run, stepEq_Init, ho]
      constructor
      · intro out h cx hm
        exact (storePsi_CheckVerificationType o n (i + 1) _).1 out h
          (List.mem_map_of_mem Prod.fst hm)
      · exact (storePsi_CheckVerificationType o n (i + 1) _).2
    | fail =>
      simp [run, stepEq_Init, ho]
      constructor
      · intro out h cx hm
        exact absurd (List.mem_map_of_mem Prod.fst hm)
          (storeNotMem_HandleInitError o n (i + 1) _).1
      · have h0 := (storeNotMem_HandleInitError o n (i + 1) (setPath c ["error"] errInfo)).2
        simp [h0]
    | timeout => simp [run, stepEq_Init, ho]

end VMVerif

namespace VMVerif

/-- C1 counterexample: an execution in which FetchImages completes
successfully (PrepareSystemPrompt is entered) but a later stage other
than the two Bedrock stages fails (here PrepareSystemPrompt itself);
the execution fails without ever invoking StoreResults, so StoreResults
is not called for every such execution, contradicting the claim. -/
theorem c1_counterexample :
    execTrace prepFailOracle (J.obj []) =
      [.Init, .CheckVerificationType, .FetchImages, .PrepareSystemPrompt] ∧
    (exec prepFailOracle (J.obj [])).2 = .failed ∧
    .StoreResults ∉ execTrace prepFailOracle (J.obj []) :=
  ⟨rfl, rfl, by decide⟩

/-- C1 (amended): for every execution in which FetchImages completes
successfully and which terminates normally (a terminal Pass state ends
it, which covers full success and the two Bedrock-failure recovery
chains), StoreResults is invoked exactly once before the execution
ends.  Executions aborted by a failure of another later stage, or by
the workflow timeout, end without invoking StoreResults. -/
theorem c1_store_exactly_once_when_completed (o : Nat → Ev) (c0 : J)
    (h : isSucceeded (exec o c0).2 = true)
    (hm : .PrepareSystemPrompt ∈ execTrace o c0) :
    (execTrace o c0).count .StoreResults = 1 := by
  cases hres : (exec o c0).2 with
  | succeeded out => exact (storePsi_Init o 24 0 c0).1 out hres hm
  | failed => rw [hres] at h; simp [isSucceeded] at h
  | timedOut => rw [hres] at h; simp [isSucceeded] at h
  | outOfFuel => rw [hres] at h; simp [isSucceeded] at h

/-- C1 witness: the fully successful layout-vs-checking execution
satisfies the hypotheses, and StoreResults is counted exactly once. -/
theorem c1_witness :
    isSucceeded (exec happyOracle (J.obj [])).2 = true ∧
    .PrepareSystemPrompt ∈ execTrace happyOracle (J.obj []) ∧
    (execTrace happyOracle (J.obj [])).count .StoreResults = 1 :=
  ⟨rfl, by decide,
    c1_store_exactly_once_when_completed happyOracle (J.obj []) rfl (by decide)⟩

end VMVerif

namespace VMVerif

theorem getField_setField (fs : List (String × J)) (k : String) (v : J) :
    getField (setField fs k v) k = some v := by
  induction fs with
  | nil => simp [setField, getField]
  | cons kv rest ih =>
    by_cases hk : kv.1 = k
    · simp [setField, getField, hk]
    · simp [setField, getField, hk, ih]

theorem readPath_set_then (d : J) (k : String) (v : J) (p : List String) :
    readPath (setPath d [k] v) (k :: p) = readPath v p := by
  cases d <;> simp [setPath, readPath, getField_setField, getField]

/-- C2 counterexample: a context whose verificationType is the
upper-case enum spelling PREVIOUS_VS_CURRENT is routed by the
CheckVerificationType choice to FetchImages, not to
FetchHistoricalVerification, and no configuration-error state is
entered — the claim's case-sensitive match against the upper-case enum
value and its fatal-error fallback do not describe the machine. -/
theorem c2_counterexample :
    readPath upperTypeCtx ["verificationContext", "verificationType"] =
      some (J.str "PREVIOUS_VS_CURRENT") ∧
    (run timeoutOracle 3 0 .CheckVerificationType upperTypeCtx).1.map Prod.fst =
      [.CheckVerificationType, .FetchImages] ∧
    .FetchHistoricalVerification ∉
      (run timeoutOracle 3 0 .CheckVerificationType upperTypeCtx).1.map Prod.fst :=
  ⟨rfl, rfl, by decide⟩

/-- C2 (amended): after Initialize, the choice sends the execution to
FetchHistoricalVerification exactly when verificationType equals the
lower-case string previous_vs_current under a case-sensitive match, and
to FetchImages for every other string value. -/
theorem c2_branch_on_lowercase_string (o : Nat → Ev) (fuel i : Nat) (c : J) (w : String)
    (h : readPath c ["verificationContext", "verificationType"] = some (.str w)) :
    ((run o (fuel + 2) i .CheckVerificationType c).1.map Prod.fst).take 2 =
      [.CheckVerificationType,
       if w = "previous_vs_current" then .FetchHistoricalVerification else .FetchImages] := by
  by_cases hw : w = "previous_vs_current"
  · have hstep : step o i .CheckVerificationType c = .goto .FetchHistoricalVerification c 0 := by
      rw [stepEq_CheckVerificationType, h]
      simp [hw]
    rw [run_goto o (fuel + 1) i .CheckVerificationType c .FetchHistoricalVerification c 0 hstep]
    obtain ⟨tl, htl⟩ := run_head o fuel i .FetchHistoricalVerification c
    simp [htl, hw]
  · have hstep : step o i .CheckVerificationType c = .goto .FetchImages c 0 := by
      rw [stepEq_CheckVerificationType, h]
      simp [hw]
    rw [run_goto o (fuel + 1) i .CheckVerificationType c .FetchImages c 0 hstep]
    obtain ⟨tl, htl⟩ := run_head o fuel i .FetchImages c
    simp [htl, hw]

/-- C2 witness: with the lower-case string the choice selects
FetchHistoricalVerification. -/
theorem c2_witness :
    ((run timeoutOracle 2 0 .CheckVerificationType lowerTypeCtx).1.map Prod.fst).take 2 =
      [.CheckVerificationType, .FetchHistoricalVerification] := by
  have h := c2_branch_on_lowercase_string timeoutOracle 0 0 lowerTypeCtx "previous_vs_current" rfl
  simpa using h

end VMVerif

namespace VMVerif

/-- C4: when Initialize, FetchHistoricalVerification or FetchImages
fails, the execution transitions directly to its terminal marker Pass
state, which writes a FAILED status object with a reason at the error
path, and the execution ends with a two-entry trace that never reaches
StoreResults. -/
theorem c4_early_failures_skip_store (o : Nat → Ev) (fuel i : Nat) (c : J)
    (h : o i = .fail) :
    (run o (fuel + 2) i .Init c).1.map Prod.fst = [.Init, .HandleInitError] ∧
    (run o (fuel + 2) i .Init c).2 =
      .succeeded (setPath (setPath c ["error"] errInfo) ["error"] (J.obj
        [ ("status", J.str "FAILED")
        , ("error", J.str "Failed to initialize verification process") ])) ∧
    (run o (fuel + 2) i .FetchHistoricalVerification c).1.map Prod.fst =
      [.FetchHistoricalVerification, .HandleHistoricalFetchError] ∧
    (run o (fuel + 2) i .FetchHistoricalVerification c).2 =
      .succeeded (setPath (setPath c ["error"] errInfo) ["error"] (J.obj
        [ ("status", J.str "FAILED")
        , ("error", J.str "Failed to retrieve historical verification data") ])) ∧
    (run o (fuel + 2) i .FetchImages c).1.map Prod.fst =
      [.FetchImages, .HandleFetchImagesError] ∧
    (run o (fuel + 2) i .FetchImages c).2 =
      .succeeded (setPath (setPath c ["error"] errInfo) ["error"] (J.obj
        [ ("status", J.str "FAILED")
        , ("error", J.str "Failed to fetch images or metadata") ])) ∧
    (∀ d m, readPath (setPath d ["error"] (J.obj
        [("status", J.str "FAILED"), ("error", J.str m)])) ["error", "status"] =
        some (J.str "FAILED") ∧
      readPath (setPath d ["error"] (J.obj
        [("status", J.str "FAILED"), ("error", J.str m)])) ["error", "error"] =
        some (J.str m)) := by
  have hs1 : step o i .Init c = .goto .HandleInitError (setPath c ["error"] errInfo) 1 := by
    rw [stepEq_Init, h]
  have hs2 : step o i .FetchHistoricalVerification c =
      .goto .HandleHistoricalFetchError (setPath c ["error"] errInfo) 1 := by
    rw [stepEq_FetchHistoricalVerification, h]
  have hs3 : step o i .FetchImages c =
      .goto .HandleFetchImagesError (setPath c ["error"] errInfo) 1 := by
    rw [stepEq_FetchImages, h]
  refine ⟨?_, ?_, ?_, ?_, ?_, ?_, ?_⟩
  · rw [run_goto o (fuel + 1) i .Init c _ _ 1 hs1,
      run_halt o fuel (i + 1) .HandleInitError _ _ (stepEq_HandleInitError o (i + 1) _)]
    simp
  · rw [run_goto o (fuel + 1) i .Init c _ _ 1 hs1,
      run_halt o fuel (i + 1) .HandleInitError _ _ (stepEq_HandleInitError o (i + 1) _)]
  · rw [run_goto o (fuel + 1) i .FetchHistoricalVerification c _ _ 1 hs2,
      run_halt o fuel (i + 1) .HandleHistoricalFetchError _ _
        (stepEq_HandleHistoricalFetchError o (i + 1) _)]
    simp
  · rw [run_goto o (fuel + 1) i .FetchHistoricalVerification c _ _ 1 hs2,
      run_halt o fuel (i + 1) .HandleHistoricalFetchError _ _
        (stepEq_HandleHistoricalFetchError o (i + 1) _)]
  · rw [run_goto o (fuel + 1) i .FetchImages c _ _ 1 hs3,
      run_halt o fuel (i + 1) .HandleFetchImagesError _ _
        (stepEq_HandleFetchImagesError o (i + 1) _)]
    simp
  · rw [run_goto o (fuel + 1) i .FetchImages c _ _ 1 hs3,
      run_halt o fuel (i + 1) .HandleFetchImagesError _ _
        (stepEq_HandleFetchImagesError o (i + 1) _)]
  · intro d m
    constructor
    · rw [readPath_set_then]
      rfl
    · rw [readPath_set_then]
      rfl

/-- C4 witness: a failing Initialize produces the two-entry trace
ending at the marker state. -/
theorem c4_witness :
    (run (fun _ => Ev.fail) 2 0 .Init (J.obj [])).1.map Prod.fst = [.Init, .HandleInitError] :=
  (c4_early_failures_skip_store (fun _ => Ev.fail) 0 0 (J.obj []) rfl).1

/-- C5: evaluating the UpdateConversationStateAfterTurn1 parameters at
a concrete post-turn-1 context shows the divergence: currentTurn
becomes 1, but history becomes the two-element array whose first
element is the whole previous (empty) history array — States.Array
nests rather than appends, so the history length is 2, not
currentTurn = 1. -/
theorem c5_history_not_append :
    readPath ((evalTmpl turn1Ctx update_conversation_state_after_turn1_params).getD J.null)
      ["conversationState", "currentTurn"] = some (J.num 1) ∧
    readPath ((evalTmpl turn1Ctx update_conversation_state_after_turn1_params).getD J.null)
      ["conversationState", "history"] = some (J.arr [J.arr [], J.str "resp1"]) ∧
    ([J.arr [], J.str "resp1"] : List J).length = 2 ∧
    (2 : Nat) ≠ 1 :=
  ⟨rfl, rfl, rfl, by decide⟩

end VMVerif

namespace VMVerif

/-- C6 counterexample: the path verificationContext, written by
Initialize and readable at the CheckVerificationType and FetchImages
entries, is unreadable at the PrepareSystemPrompt entry because the
FetchImages result (result_path the dollar root) replaced the whole
context — merging is not non-destructive. -/
theorem c6_counterexample :
    (exec wipeOracle (J.obj [])).1.map Prod.fst =
      [.Init, .CheckVerificationType, .FetchImages, .PrepareSystemPrompt] ∧
    (exec wipeOracle (J.obj [])).1.map (fun p => readPath p.2 ["verificationContext"]) =
      [ none
      , some (J.obj [("verificationType", J.str "layout_vs_checking")])
      , some (J.obj [("verificationType", J.str "layout_vs_checking")])
      , none ] :=
  ⟨rfl, rfl⟩

/-- C6 (amended): what does hold is that the conversation-state update
Pass before FinalizeResults re-lists referenceAnalysis and
checkingAnalysis, so whenever it succeeds both remain readable with
their previous values. -/
theorem c6_update_turn2_preserves_analyses (c u : J)
    (h : evalTmpl c update_conversation_state_after_turn2_params = some u) :
    readPath u ["referenceAnalysis"] = readPath c ["referenceAnalysis"] ∧
    readPath u ["checkingAnalysis"] = readPath c ["checkingAnalysis"] := by
  simp only [update_conversation_state_after_turn2_params, evalTmpl, evalFields] at h
  rcases h1 : readPath c ["verificationContext"] with _ | v1 <;> rw [h1] at h
  · simp at h
  rcases h2 : readPath c ["images"] with _ | v2 <;> rw [h2] at h
  · simp at h
  rcases h3 : readPath c ["systemPrompt"] with _ | v3 <;> rw [h3] at h
  · simp at h
  rcases h4 : readPath c ["historicalContext"] with _ | v4 <;> rw [h4] at h
  · simp at h
  rcases h5 : readPath c ["currentPrompt"] with _ | v5 <;> rw [h5] at h
  · simp at h
  rcases h6 : readPath c ["turn1Response"] with _ | v6 <;> rw [h6] at h
  · simp at h
  rcases h7 : readPath c ["turn2Response"] with _ | v7 <;> rw [h7] at h
  · simp at h
  rcases h8 : readPath c ["referenceAnalysis"] with _ | v8 <;> rw [h8] at h
  · simp at h
  rcases h9 : readPath c ["checkingAnalysis"] with _ | v9 <;> rw [h9] at h
  · simp at h
  rcases h10 : readPath c ["conversationState", "history"] with _ | v10 <;> rw [h10] at h
  · simp at h
  simp at h
  subst h
  constructor
  · simp [readPath, getField, h8]
  · simp [readPath, getField, h9]

/-- C6 witness: the preservation equation holds at a concrete
post-turn-2 context. -/
theorem c6_witness :
    readPath ((evalTmpl turn2Ctx update_conversation_state_after_turn2_params).getD J.null)
      ["referenceAnalysis"] = readPath turn2Ctx ["referenceAnalysis"] :=
  (c6_update_turn2_preserves_analyses turn2Ctx
    ((evalTmpl turn2Ctx update_conversation_state_after_turn2_params).getD J.null) rfl).1

end VMVerif

namespace VMVerif

theorem c7_turn1_part (o : Nat → Ev) (fuel i : Nat) (c a b sp hc p1 r1 r2 : J)
    (h1 : readPath c ["verificationContext"] = some a)
    (h2 : readPath c ["images"] = some b)
    (h3 : readPath c ["systemPrompt"] = some sp)
    (h4 : readPath c ["historicalContext"] = some hc)
    (e0 : o i = .ok p1) (e1 : o (i + 1) = .fail) (e2 : o (i + 2) = .ok r1)
    (e3 : o (i + 3) = .ok r2)
    (hfr : finalize_with_error_result r2) :
    ((run o (fuel + 6) i .InitConversationState c).1.map Prod.fst).take 6 =
      [.InitConversationState, .PrepareTurn1Prompt, .ExecuteTurn1,
       .HandleBedrockErrorTurn1, .FinalizeWithErrorTurn1, .StoreResults] ∧
    (∀ p ∈ (run o (fuel + 6) i .InitConversationState c).1.take 6,
      (p.1 = .HandleBedrockErrorTurn1 → readPath p.2 ["referenceAnalysis"] = none) ∧
      (p.1 = .StoreResults → readPath p.2 ["finalResults"] = some r2 ∧
        readPath r2 ["verificationStatus"] = some (J.str "FAILED"))) := by
  have hc1 : evalTmpl c init_conversation_state_params =
      some (J.obj
        [ ("verificationContext", a), ("images", b), ("systemPrompt", sp)
        , ("historicalContext", hc), ("conversationState", conversation_state_start) ]) := by
    simp [init_conversation_state_params, evalTmpl, evalFields, h1, h2, h3, h4]
  have hs0 : step o i .InitConversationState c =
      .goto .PrepareTurn1Prompt (J.obj
        [ ("verificationContext", a), ("images", b), ("systemPrompt", sp)
        , ("historicalContext", hc), ("conversationState", conversation_state_start) ]) 0 := by
    rw [stepEq_InitConversationState, hc1]
  set c1 : J := J.obj
    [ ("verificationContext", a), ("images", b), ("systemPrompt", sp)
    , ("historicalContext", hc), ("conversationState", conversation_state_start) ] with hc1def
  have hev1 : (evalTmpl c1 prepare_turn1_prompt_payload).isSome = true := by
    simp [prepare_turn1_prompt_payload, evalTmpl, evalFields, hc1def, readPath, getField]
  have hs1 : step o i .PrepareTurn1Prompt c1 =
      .goto .ExecuteTurn1 (setPath c1 ["currentPrompt"] p1) 1 := by
    rw [stepEq_PrepareTurn1Prompt]
    cases hev : evalTmpl c1 prepare_turn1_prompt_payload with
    | none => rw [hev] at hev1; simp at hev1
    | some u => rw [e0]
  have hs2 : step o (i + 1) .ExecuteTurn1 (setPath c1 ["currentPrompt"] p1) =
      .goto .HandleBedrockErrorTurn1
        (setPath (setPath c1 ["currentPrompt"] p1) ["error"] errInfo) 1 := by
    rw [stepEq_ExecuteTurn1, e1]
  have hs3 : step o (i + 2) .HandleBedrockErrorTurn1
      (setPath (setPath c1 ["currentPrompt"] p1) ["error"] errInfo) =
      .goto .FinalizeWithErrorTurn1 r1 1 := by
    rw [stepEq_HandleBedrockErrorTurn1, e2]
  have hs4 : step o (i + 3) .FinalizeWithErrorTurn1 r1 =
      .goto .StoreResults (setPath r1 ["finalResults"] r2) 1 := by
    rw [stepEq_FinalizeWithErrorTurn1, e3]
  rw [run_goto o (fuel + 5) i .InitConversationState c _ _ 0 hs0]
  simp only [Nat.add_zero]
  rw [run_goto o (fuel + 4) i .PrepareTurn1Prompt c1 _ _ 1 hs1]
  rw [run_goto o (fuel + 3) (i + 1) .ExecuteTurn1 _ _ _ 1 hs2]
  rw [run_goto o (fuel + 2) (i + 1 + 1) .HandleBedrockErrorTurn1 _ _ _ 1 hs3]
  rw [run_goto o (fuel + 1) (i + 1 + 1 + 1) .FinalizeWithErrorTurn1 _ _ _ 1 hs4]
  obtain ⟨tl, htl⟩ :=
    run_head o fuel (i + 1 + 1 + 1 + 1) .StoreResults (setPath r1 ["finalResults"] r2)
  rw [htl]
  constructor
  · simp
  · intro p hp
    simp [List.take] at hp
    rcases hp with hp | hp | hp | hp | hp | hp <;> subst hp
    · exact ⟨fun hh => by simp at hh, fun hh => by simp at hh⟩
    · exact ⟨fun hh => by simp at hh, fun hh => by simp at hh⟩
    · exact ⟨fun hh => by simp at hh, fun hh => by simp at hh⟩
    · refine ⟨fun hh => ?_, fun hh => by simp at hh⟩
      simp [hc1def, setPath, setField, readPath, getField]
    · exact ⟨fun hh => by simp at hh, fun hh => by simp at hh⟩
    · refine ⟨fun hh => by simp at hh, fun hh => ?_⟩
      exact ⟨by simpa using readPath_set_then r1 "finalResults" r2 [], hfr⟩

end VMVerif

namespace VMVerif

theorem c7_turn2_part (o : Nat → Ev) (fuel i : Nat) (c a b sp hc p1 x1 ra p2 r1 r2 : J)
    (h1 : readPath c ["verificationContext"] = some a)
    (h2 : readPath c ["images"] = some b)
    (h3 : readPath c ["systemPrompt"] = some sp)
    (h4 : readPath c ["historicalContext"] = some hc)
    (e0 : o i = .ok p1) (e1 : o (i + 1) = .ok x1) (e2 : o (i + 2) = .ok ra)
    (e3 : o (i + 3) = .ok p2) (e4 : o (i + 4) = .fail) (e5 : o (i + 5) = .ok r1)
    (e6 : o (i + 6) = .ok r2)
    (hfr : finalize_with_error_result r2) :
    ((run o (fuel + 10) i .InitConversationState c).1.map Prod.fst).take 10 =
      [.InitConversationState, .PrepareTurn1Prompt, .ExecuteTurn1, .ProcessTurn1Response,
       .UpdateConversationStateAfterTurn1, .PrepareTurn2Prompt, .ExecuteTurn2,
       .HandleBedrockErrorTurn2, .FinalizeWithErrorTurn2, .StoreResults] ∧
    (∀ p ∈ (run o (fuel + 10) i .InitConversationState c).1.take 10,
      (p.1 = .HandleBedrockErrorTurn2 → readPath p.2 ["referenceAnalysis"] = some ra) ∧
      (p.1 = .StoreResults → readPath p.2 ["finalResults"] = some r2 ∧
        readPath r2 ["verificationStatus"] = some (J.str "FAILED"))) := by
  have hc1 : evalTmpl c init_conversation_state_params =
      some (J.obj
        [ ("verificationContext", a), ("images", b), ("systemPrompt", sp)
        , ("historicalContext", hc), ("conversationState", conversation_state_start) ]) := by
    simp [init_conversation_state_params, evalTmpl, evalFields, h1, h2, h3, h4]
  have hs0 : step o i .InitConversationState c =
      .goto .PrepareTurn1Prompt (J.obj
        [ ("verificationContext", a), ("images", b), ("systemPrompt", sp)
        , ("historicalContext", hc), ("conversationState", conversation_state_start) ]) 0 := by
    rw [stepEq_InitConversationState, hc1]
  set c1 : J := J.obj
    [ ("verificationContext", a), ("images", b), ("systemPrompt", sp)
    , ("historicalContext", hc), ("conversationState", conversation_state_start) ] with hc1def
  have hev1 : (evalTmpl c1 prepare_turn1_prompt_payload).isSome = true := by
    simp [prepare_turn1_prompt_payload, evalTmpl, evalFields, hc1def, readPath, getField]
  have hs1 : step o i .PrepareTurn1Prompt c1 =
      .goto .ExecuteTurn1 (setPath c1 ["currentPrompt"] p1) 1 := by
    rw [stepEq_PrepareTurn1Prompt]
    cases hev : evalTmpl c1 prepare_turn1_prompt_payload with
    | none => rw [hev] at hev1; simp at hev1
    | some u => rw [e0]
  have hs2 : step o (i + 1) .ExecuteTurn1 (setPath c1 ["currentPrompt"] p1) =
      .goto .ProcessTurn1Response
        (setPath (setPath c1 ["currentPrompt"] p1) ["turn1Response"] x1) 1 := by
    rw [stepEq_ExecuteTurn1, e1]
  have hs3 : step o (i + 2) .ProcessTurn1Response
      (setPath (setPath c1 ["currentPrompt"] p1) ["turn1Response"] x1) =
      .goto .UpdateConversationStateAfterTurn1
        (setPath (setPath (setPath c1 ["currentPrompt"] p1) ["turn1Response"] x1)
          ["referenceAnalysis"] ra) 1 := by
    rw [stepEq_ProcessTurn1Response, e2]
  set c5 : J := J.obj
    [ ("verificationContext", a), ("images", b), ("systemPrompt", sp)
    , ("historicalContext", hc), ("currentPrompt", p1), ("turn1Response", x1)
    , ("referenceAnalysis", ra)
    , ("conversationState", J.obj
        [ ("currentTurn", J.num 1), ("maxTurns", J.num 2)
        , ("history", J.arr [J.arr [], x1])
        , ("referenceAnalysis", ra), ("checkingAnalysis", J.obj []) ]) ] with hc5def
  have hupd : evalTmpl
      (setPath (setPath (setPath c1 ["currentPrompt"] p1) ["turn1Response"] x1)
        ["referenceAnalysis"] ra) update_conversation_state_after_turn1_params = some c5 := by
    simp [hc1def, hc5def, update_conversation_state_after_turn1_params, evalTmpl, evalFields,
      setPath, setField, readPath, getField, conversation_state_start]
  have hs4 : step o (i + 3) .UpdateConversationStateAfterTurn1
      (setPath (setPath (setPath c1 ["currentPrompt"] p1) ["turn1Response"] x1)
        ["referenceAnalysis"] ra) =
      .goto .PrepareTurn2Prompt c5 0 := by
    rw [stepEq_UpdateConversationStateAfterTurn1, hupd]
  have hev2 : (evalTmpl c5 prepare_turn2_prompt_payload).isSome = true := by
    simp [prepare_turn2_prompt_payload, evalTmpl, evalFields, hc5def, readPath, getField]
  have hs5 : step o (i + 3) .PrepareTurn2Prompt c5 =
      .goto .ExecuteTurn2 (setPath c5 ["currentPrompt"] p2) 1 := by
    rw [stepEq_PrepareTurn2Prompt]
    cases hev : evalTmpl c5 prepare_turn2_prompt_payload with
    | none => rw [hev] at hev2; simp at hev2
    | some u => rw [e3]
  have hs6 : step o (i + 4) .ExecuteTurn2 (setPath c5 ["currentPrompt"] p2) =
      .goto .HandleBedrockErrorTurn2
        (setPath (setPath c5 ["currentPrompt"] p2) ["error"] errInfo) 1 := by
    rw [stepEq_ExecuteTurn2, e4]
  have hs7 : step o (i + 5) .HandleBedrockErrorTurn2
      (setPath (setPath c5 ["currentPrompt"] p2) ["error"] errInfo) =
      .goto .FinalizeWithErrorTurn2 r1 1 := by
    rw [stepEq_HandleBedrockErrorTurn2, e5]
  have hs8 : step o (i + 6) .FinalizeWithErrorTurn2 r1 =
      .goto .StoreResults (setPath r1 ["finalResults"] r2) 1 := by
    rw [stepEq_FinalizeWithErrorTurn2, e6]
  rw [run_goto o (fuel + 9) i .InitConversationState c _ _ 0 hs0]
  simp only [Nat.add_zero]
  rw [run_goto o (fuel + 8) i .PrepareTurn1Prompt c1 _ _ 1 hs1]
  rw [run_goto o (fuel + 7) (i + 1) .ExecuteTurn1 _ _ _ 1 hs2]
  rw [run_goto o (fuel + 6) (i + 1 + 1) .ProcessTurn1Response _ _ _ 1 hs3]
  have hidx : i + 1 + 1 + 1 = i + 3 := by omega
  rw [hidx]
  rw [run_goto o (fuel + 5) (i + 3) .UpdateConversationStateAfterTurn1 _ _ _ 0 hs4]
  simp only [Nat.add_zero]
  rw [run_goto o (fuel + 4) (i + 3) .PrepareTurn2Prompt c5 _ _ 1 hs5]
  have hidx2 : i + 3 + 1 = i + 4 := by omega
  rw [hidx2]
  rw [run_goto o (fuel + 3) (i + 4) .ExecuteTurn2 _ _ _ 1 hs6]
  have hidx3 : i + 4 + 1 = i + 5 := by omega
  rw [hidx3]
  rw [run_goto o (fuel + 2) (i + 5) .HandleBedrockErrorTurn2 _ _ _ 1 hs7]
  have hidx4 : i + 5 + 1 = i + 6 := by omega
  rw [hidx4]
  rw [run_goto o (fuel + 1) (i + 6) .FinalizeWithErrorTurn2 _ _ _ 1 hs8]
  obtain ⟨tl, htl⟩ :=
    run_head o fuel (i + 6 + 1) .StoreResults (setPath r1 ["finalResults"] r2)
  rw [htl]
  constructor
  · simp
  · intro p hp
    simp [List.take] at hp
    rcases hp with hp | hp | hp | hp | hp | hp | hp | hp | hp | hp <;> subst hp
    · exact ⟨fun hh => by simp at hh, fun hh => by simp at hh⟩
    · exact ⟨fun hh => by simp at hh, fun hh => by simp at hh⟩
    · exact ⟨fun hh => by simp at hh, fun hh => by simp at hh⟩
    · exact ⟨fun hh => by simp at hh, fun hh => by simp at hh⟩
    · exact ⟨fun hh => by simp at hh, fun hh => by simp at hh⟩
    · exact ⟨fun hh => by simp at hh, fun hh => by simp at hh⟩
    · exact ⟨fun hh => by simp at hh, fun hh => by simp at hh⟩
    · refine ⟨fun hh => ?_, fun hh => by simp at hh⟩
      simp [hc5def, setPath, setField, readPath, getField]
    · exact ⟨fun hh => by simp at hh, fun hh => by simp at hh⟩
    · refine ⟨fun hh => by simp at hh, fun hh => ?_⟩
      exact ⟨by simpa using readPath_set_then r1 "finalResults" r2 [], hfr⟩

end VMVerif

namespace VMVerif

/-- C7: error isolation between the two Bedrock turns.  First conjunct:
when ExecuteTurn1 fails (after InitializeConversationState rebuilt the
context and PrepareTurn1Prompt succeeded), the recovery chain
HandleBedrockErrorTurn1, FinalizeWithErrorTurn1, StoreResults runs; at
the HandleBedrockErrorTurn1 entry the context has no referenceAnalysis
path, and at the StoreResults entry the stored finalResults is the
FinalizeWithError result, which carries verificationStatus FAILED
(modelled from the spec, see finalize_with_error_result).  Second
conjunct: when ExecuteTurn2 fails after a successful turn 1, the
corresponding turn-2 recovery chain runs and at the
HandleBedrockErrorTurn2 entry the context still carries the turn-1
referenceAnalysis. -/
theorem c7_error_isolation :
    (∀ (o : Nat → Ev) (fuel i : Nat) (c a b sp hc p1 r1 r2 : J),
      readPath c ["verificationContext"] = some a →
      readPath c ["images"] = some b →
      readPath c ["systemPrompt"] = some sp →
      readPath c ["historicalContext"] = some hc →
      o i = .ok p1 → o (i + 1) = .fail → o (i + 2) = .ok r1 → o (i + 3) = .ok r2 →
      finalize_with_error_result r2 →
      ((run o (fuel + 6) i .InitConversationState c).1.map Prod.fst).take 6 =
        [.InitConversationState, .PrepareTurn1Prompt, .ExecuteTurn1,
         .HandleBedrockErrorTurn1, .FinalizeWithErrorTurn1, .StoreResults] ∧
      (∀ p ∈ (run o (fuel + 6) i .InitConversationState c).1.take 6,
        (p.1 = .HandleBedrockErrorTurn1 → readPath p.2 ["referenceAnalysis"] = none) ∧
        (p.1 = .StoreResults → readPath p.2 ["finalResults"] = some r2 ∧
          readPath r2 ["verificationStatus"] = some (J.str "FAILED")))) ∧
    (∀ (o : Nat → Ev) (fuel i : Nat) (c a b sp hc p1 x1 ra p2 r1 r2 : J),
      readPath c ["verificationContext"] = some a →
      readPath c ["images"] = some b →
      readPath c ["systemPrompt"] = some sp →
      readPath c ["historicalContext"] = some hc →
      o i = .ok p1 → o (i + 1) = .ok x1 → o (i + 2) = .ok ra →
      o (i + 3) = .ok p2 → o (i + 4) = .fail → o (i + 5) = .ok r1 →
      o (i + 6) = .ok r2 →
      finalize_with_error_result r2 →
      ((run o (fuel + 10) i .InitConversationState c).1.map Prod.fst).take 10 =
        [.InitConversationState, .PrepareTurn1Prompt, .ExecuteTurn1, .ProcessTurn1Response,
         .UpdateConversationStateAfterTurn1, .PrepareTurn2Prompt, .ExecuteTurn2,
         .HandleBedrockErrorTurn2, .FinalizeWithErrorTurn2, .StoreResults] ∧
      (∀ p ∈ (run o (fuel + 10) i .InitConversationState c).1.take 10,
        (p.1 = .HandleBedrockErrorTurn2 → readPath p.2 ["referenceAnalysis"] = some ra) ∧
        (p.1 = .StoreResults → readPath p.2 ["finalResults"] = some r2 ∧
          readPath r2 ["verificationStatus"] = some (J.str "FAILED")))) := by
  constructor
  · intro o fuel i c a b sp hc p1 r1 r2 h1 h2 h3 h4 e0 e1 e2 e3 hfr
    exact c7_turn1_part o fuel i c a b sp hc p1 r1 r2 h1 h2 h3 h4 e0 e1 e2 e3 hfr
  · intro o fuel i c a b sp hc p1 x1 ra p2 r1 r2 h1 h2 h3 h4 e0 e1 e2 e3 e4 e5 e6 hfr
    exact c7_turn2_part o fuel i c a b sp hc p1 x1 ra p2 r1 r2 h1 h2 h3 h4 e0 e1 e2 e3 e4 e5 e6 hfr

/-- C7 witness: the concrete ExecuteTurn1-failure execution exhibits
the turn-1 recovery chain. -/
theorem c7_witness :
    ((run c7t1Oracle 6 0 .InitConversationState turnStartCtx).1.map Prod.fst).take 6 =
      [.InitConversationState, .PrepareTurn1Prompt, .ExecuteTurn1,
       .HandleBedrockErrorTurn1, .FinalizeWithErrorTurn1, .StoreResults] :=
  (c7_error_isolation.1 c7t1Oracle 0 0 turnStartCtx layoutVC (J.str "imgs") (J.str "sys")
    (J.obj []) (J.str "p1") bedrockErrorHandlerResult failedFinalResult
    rfl rfl rfl rfl rfl rfl rfl rfl rfl).1

end VMVerif

namespace VMVerif

theorem step_halt_timedOut_isTask (o : Nat → Ev) (j : Nat) (s : SName) (c : J)
    (h : step o j s c = .halt .timedOut) : isTaskState s = true := by
  cases s
  case CheckVerificationType =>
    rw [stepEq_CheckVerificationType] at h
    rcases hr : readPath c ["verificationContext", "verificationType"] with _ | v <;>
      rw [hr] at h
    · simp at h
    · rcases v <;> simp at h
  case ShouldNotify =>
    rw [stepEq_ShouldNotify] at h
    rcases hr : readPath c ["verificationContext", "notificationEnabled"] with _ | v <;>
      rw [hr] at h
    · simp at h
    · rcases v <;> simp at h
  case InitConversationState =>
    rw [stepEq_InitConversationState] at h
    rcases he : evalTmpl c init_conversation_state_params with _ | r <;> rw [he] at h <;>
      simp at h
  case UpdateConversationStateAfterTurn1 =>
    rw [stepEq_UpdateConversationStateAfterTurn1] at h
    rcases he : evalTmpl c update_conversation_state_after_turn1_params with _ | r <;>
      rw [he] at h <;> simp at h
  case UpdateConversationStateAfterTurn2 =>
    rw [stepEq_UpdateConversationStateAfterTurn2] at h
    rcases he : evalTmpl c update_conversation_state_after_turn2_params with _ | r <;>
      rw [he] at h <;> simp at h
  case WorkflowComplete =>
    rw [stepEq_WorkflowComplete] at h
    rcases he : evalTmpl c workflow_complete_params with _ | r <;> rw [he] at h <;> simp at h
  case HandleInitError => rw [stepEq_HandleInitError] at h; simp at h
  case HandleHistoricalFetchError => rw [stepEq_HandleHistoricalFetchError] at h; simp at h
  case HandleFetchImagesError => rw [stepEq_HandleFetchImagesError] at h; simp at h
  all_goals rfl

/-- C9 counterexample: when the execution-level timeout fires during
PrepareSystemPrompt, the run ends timed out with neither
FinalizeWithError instance nor StoreResults in the trace — the timeout
is not routed to a finalize-with-error path and nothing is persisted. -/
theorem c9_counterexample :
    (exec timeoutAtPrepOracle (J.obj [])).2 = .timedOut ∧
    execTrace timeoutAtPrepOracle (J.obj []) =
      [.Init, .CheckVerificationType, .FetchImages, .PrepareSystemPrompt] ∧
    .FinalizeWithErrorTurn1 ∉ execTrace timeoutAtPrepOracle (J.obj []) ∧
    .FinalizeWithErrorTurn2 ∉ execTrace timeoutAtPrepOracle (J.obj []) ∧
    .StoreResults ∉ execTrace timeoutAtPrepOracle (J.obj []) :=
  ⟨rfl, rfl, by decide, by decide, by decide⟩

/-- C9 (amended): a timed-out run ends at the task state that was in
flight when the timeout fired: that state is the last trace entry and
no further stage runs. -/
theorem c9_timeout_halts_at_task (o : Nat → Ev) (fuel i : Nat) (s : SName) (c : J)
    (h : (run o fuel i s c).2 = .timedOut) :
    ∃ pre sf cf, (run o fuel i s c).1 = pre ++ [(sf, cf)] ∧ isTaskState sf = true := by
  have hne : (run o fuel i s c).2 ≠ .outOfFuel := by rw [h]; simp
  obtain ⟨pre, a, j, h1, h2⟩ := run_last_halt o fuel i s c hne
  rw [h] at h2
  exact ⟨pre, a.1, a.2, h1, step_halt_timedOut_isTask o j a.1 a.2 h2⟩

/-- C9 witness: the concrete timed-out execution ends at a task
state. -/
theorem c9_witness :
    ∃ pre sf cf, (exec timeoutAtPrepOracle (J.obj [])).1 = pre ++ [(sf, cf)] ∧
      isTaskState sf = true :=
  c9_timeout_halts_at_task timeoutAtPrepOracle 24 0 .Init (J.obj []) rfl

end VMVerif

namespace VMVerif

/-- C10: the templates of InitializeConversationState,
PrepareTurn1Prompt and PrepareTurn2Prompt all read the
historicalContext path; when that path is absent the
InitializeConversationState step fails the execution instead of
proceeding, and both prompt payloads likewise fail to evaluate; a
layout-vs-checking verification type is routed directly to FetchImages,
so FetchHistoricalVerification never populates the path on that
branch. -/
theorem c10_historical_context_is_read_and_required :
    (["historicalContext"] ∈ tmplReads init_conversation_state_params ∧
     ["historicalContext"] ∈ tmplReads prepare_turn1_prompt_payload ∧
     ["historicalContext"] ∈ tmplReads prepare_turn2_prompt_payload) ∧
    (∀ (o : Nat → Ev) (fuel i : Nat) (c : J),
      readPath c ["historicalContext"] = none →
      run o (fuel + 1) i .InitConversationState c =
        ([(.InitConversationState, c)], .failed)) ∧
    (∀ c : J, readPath c ["historicalContext"] = none →
      evalTmpl c prepare_turn1_prompt_payload = none ∧
      evalTmpl c prepare_turn2_prompt_payload = none) ∧
    (∀ (o : Nat → Ev) (i : Nat) (c : J),
      readPath c ["verificationContext", "verificationType"] =
        some (J.str "layout_vs_checking") →
      step o i .CheckVerificationType c = .goto .FetchImages c 0) := by
  refine ⟨⟨by decide, by decide, by decide⟩, ?_, ?_, ?_⟩
  · intro o fuel i c hh
    have hev : evalTmpl c init_conversation_state_params = none := by
      cases h1 : readPath c ["verificationContext"] <;>
        cases h2 : readPath c ["images"] <;>
          cases h3 : readPath c ["systemPrompt"] <;>
            simp [init_conversation_state_params, evalTmpl, evalFields, h1, h2, h3, hh]
    exact run_halt o fuel i .InitConversationState c .failed
      (by rw [stepEq_InitConversationState, hev])
  · intro c hh
    constructor
    · cases h1 : readPath c ["verificationContext"] <;>
        cases h2 : readPath c ["images"] <;>
          cases h3 : readPath c ["systemPrompt"] <;>
            simp [prepare_turn1_prompt_payload, evalTmpl, evalFields, h1, h2, h3, hh]
    · cases h1 : readPath c ["verificationContext"] <;>
        cases h2 : readPath c ["images"] <;>
          cases h3 : readPath c ["systemPrompt"] <;>
            simp [prepare_turn2_prompt_payload, evalTmpl, evalFields, h1, h2, h3, hh]
  · intro o i c hr
    rw [stepEq_CheckVerificationType, hr]
    simp

/-- C10 witness: a context without historicalContext makes
InitializeConversationState fail immediately. -/
theorem c10_witness :
    run timeoutOracle 1 0 .InitConversationState noHistCtx =
      ([(.InitConversationState, noHistCtx)], .failed) :=
  c10_historical_context_is_read_and_required.2.1 timeoutOracle 0 0 noHistCtx rfl

end VMVerif

namespace VMVerif

theorem getField_setField_ne (fs : List (String × J)) (k k' : String) (v : J)
    (h : k' ≠ k) : getField (setField fs k v) k' = getField fs k' := by
  induction fs with
  | nil => simp [setField, getField, Ne.symm h]
  | cons kv rest ih =>
    by_cases hk : kv.1 = k
    · simp [setField, getField, hk, h, Ne.symm h]
    · simp [setField, getField, hk, ih]

theorem readPath_set_other (c : J) (k k' : String) (v : J) (p : List String)
    (h : k' ≠ k) :
    readPath (setPath c [k] v) (k' :: p) = readPath c (k' :: p) := by
  cases c <;> simp [setPath, readPath, getField_setField_ne _ _ _ _ h, getField, h, Ne.symm h]

theorem workflowComplete_trace (o : Nat → Ev) (fuel i : Nat) (c : J) :
    (run o (fuel + 1) i .WorkflowComplete c).1 = [(.WorkflowComplete, c)] := by
  cases he : evalTmpl c workflow_complete_params with
  | none =>
    rw [run_halt o fuel i .WorkflowComplete c .failed (by rw [stepEq_WorkflowComplete, he])]
  | some r =>
    rw [run_halt o fuel i .WorkflowComplete c (.succeeded r)
      (by rw [stepEq_WorkflowComplete, he])]

theorem c3_turn1_chain (o : Nat → Ev) (fuel i : Nat) (c r1 r2 r3 : J)
    (e0 : o i = .fail) (e1 : o (i + 1) = .ok r1) (e2 : o (i + 2) = .ok r2)
    (e3 : o (i + 3) = .ok r3)
    (hne : readPath r1 ["verificationContext", "notificationEnabled"] = some (.bool false)) :
    (run o (fuel + 6) i .ExecuteTurn1 c).1.map Prod.fst =
      [.ExecuteTurn1, .HandleBedrockErrorTurn1, .FinalizeWithErrorTurn1,
       .StoreResults, .ShouldNotify, .WorkflowComplete] := by
  have hs0 : step o i .ExecuteTurn1 c =
      .goto .HandleBedrockErrorTurn1 (setPath c ["error"] errInfo) 1 := by
    rw [stepEq_ExecuteTurn1, e0]
  have hs1 : step o (i + 1) .HandleBedrockErrorTurn1 (setPath c ["error"] errInfo) =
      .goto .FinalizeWithErrorTurn1 r1 1 := by
    rw [stepEq_HandleBedrockErrorTurn1, e1]
  have hs2 : step o (i + 2) .FinalizeWithErrorTurn1 r1 =
      .goto .StoreResults (setPath r1 ["finalResults"] r2) 1 := by
    rw [stepEq_FinalizeWithErrorTurn1, e2]
  have hs3 : step o (i + 3) .StoreResults (setPath r1 ["finalResults"] r2) =
      .goto .ShouldNotify
        (setPath (setPath r1 ["finalResults"] r2) ["storageResult"] r3) 1 := by
    rw [stepEq_StoreResults, e3]
  have hread : readPath (setPath (setPath r1 ["finalResults"] r2) ["storageResult"] r3)
      ["verificationContext", "notificationEnabled"] = some (.bool false) := by
    rw [readPath_set_other _ _ _ _ _ (by decide),
      readPath_set_other _ _ _ _ _ (by decide), hne]
  have hs4 : step o (i + 3 + 1) .ShouldNotify
      (setPath (setPath r1 ["finalResults"] r2) ["storageResult"] r3) =
      .goto .WorkflowComplete
        (setPath (setPath r1 ["finalResults"] r2) ["storageResult"] r3) 0 := by
    rw [stepEq_ShouldNotify, hread]
    simp
  rw [run_goto o (fuel + 5) i .ExecuteTurn1 c _ _ 1 hs0]
  rw [run_goto o (fuel + 4) (i + 1) .HandleBedrockErrorTurn1 _ _ _ 1 hs1]
  have hidx : i + 1 + 1 = i + 2 := by omega
  rw [hidx]
  rw [run_goto o (fuel + 3) (i + 2) .FinalizeWithErrorTurn1 _ _ _ 1 hs2]
  have hidx2 : i + 2 + 1 = i + 3 := by omega
  rw [hidx2]
  rw [run_goto o (fuel + 2) (i + 3) .StoreResults _ _ _ 1 hs3]
  rw [run_goto o (fuel + 1) (i + 3 + 1) .ShouldNotify _ _ _ 0 hs4]
  rw [workflowComplete_trace]
  simp

theorem c3_turn2_chain (o : Nat → Ev) (fuel i : Nat) (c r1 r2 r3 : J)
    (e0 : o i = .fail) (e1 : o (i + 1) = .ok r1) (e2 : o (i + 2) = .ok r2)
    (e3 : o (i + 3) = .ok r3)
    (hne : readPath r1 ["verificationContext", "notificationEnabled"] = some (.bool false)) :
    (run o (fuel + 6) i .ExecuteTurn2 c).1.map Prod.fst =
      [.ExecuteTurn2, .HandleBedrockErrorTurn2, .FinalizeWithErrorTurn2,
       .StoreResults, .ShouldNotify, .WorkflowComplete] := by
  have hs0 : step o i .ExecuteTurn2 c =
      .goto .HandleBedrockErrorTurn2 (setPath c ["error"] errInfo) 1 := by
    rw [stepEq_ExecuteTurn2, e0]
  have hs1 : step o (i + 1) .HandleBedrockErrorTurn2 (setPath c ["error"] errInfo) =
      .goto .FinalizeWithErrorTurn2 r1 1 := by
    rw [stepEq_HandleBedrockErrorTurn2, e1]
  have hs2 : step o (i + 2) .FinalizeWithErrorTurn2 r1 =
      .goto .StoreResults (setPath r1 ["finalResults"] r2) 1 := by
    rw [stepEq_FinalizeWithErrorTurn2, e2]
  have hs3 : step o (i + 3) .StoreResults (setPath r1 ["finalResults"] r2) =
      .goto .ShouldNotify
        (setPath (setPath r1 ["finalResults"] r2) ["storageResult"] r3) 1 := by
    rw [stepEq_StoreResults, e3]
  have hread : readPath (setPath (setPath r1 ["finalResults"] r2) ["storageResult"] r3)
      ["verificationContext", "notificationEnabled"] = some (.bool false) := by
    rw [readPath_set_other _ _ _ _ _ (by decide),
      readPath_set_other _ _ _ _ _ (by decide), hne]
  have hs4 : step o (i + 3 + 1) .ShouldNotify
      (setPath (setPath r1 ["finalResults"] r2) ["storageResult"] r3) =
      .goto .WorkflowComplete
        (setPath (setPath r1 ["finalResults"] r2) ["storageResult"] r3) 0 := by
    rw [stepEq_ShouldNotify, hread]
    simp
  rw [run_goto o (fuel + 5) i .ExecuteTurn2 c _ _ 1 hs0]
  rw [run_goto o (fuel + 4) (i + 1) .HandleBedrockErrorTurn2 _ _ _ 1 hs1]
  have hidx : i + 1 + 1 = i + 2 := by omega
  rw [hidx]
  rw [run_goto o (fuel + 3) (i + 2) .FinalizeWithErrorTurn2 _ _ _ 1 hs2]
  have hidx2 : i + 2 + 1 = i + 3 := by omega
  rw [hidx2]
  rw [run_goto o (fuel + 2) (i + 3) .StoreResults _ _ _ 1 hs3]
  rw [run_goto o (fuel + 1) (i + 3 + 1) .ShouldNotify _ _ _ 0 hs4]
  rw [workflowComplete_trace]
  simp

end VMVerif

namespace VMVerif

/-- C3: each Bedrock stage has its own dedicated error path.  On
failure, ExecuteTurn1 transitions to HandleBedrockErrorTurn1, then
FinalizeWithErrorTurn1, then StoreResults, and the execution proceeds
to the terminal WorkflowComplete state; symmetrically for ExecuteTurn2
with its own handler instances.  The two turns' handler and finalize
instances are distinct states, and WorkflowComplete is terminal (no
successor). -/
theorem c3_dedicated_error_paths :
    (∀ (o : Nat → Ev) (fuel i : Nat) (c r1 r2 r3 : J),
      o i = .fail → o (i + 1) = .ok r1 → o (i + 2) = .ok r2 → o (i + 3) = .ok r3 →
      readPath r1 ["verificationContext", "notificationEnabled"] = some (.bool false) →
      (run o (fuel + 6) i .ExecuteTurn1 c).1.map Prod.fst =
        [.ExecuteTurn1, .HandleBedrockErrorTurn1, .FinalizeWithErrorTurn1,
         .StoreResults, .ShouldNotify, .WorkflowComplete]) ∧
    (∀ (o : Nat → Ev) (fuel i : Nat) (c r1 r2 r3 : J),
      o i = .fail → o (i + 1) = .ok r1 → o (i + 2) = .ok r2 → o (i + 3) = .ok r3 →
      readPath r1 ["verificationContext", "notificationEnabled"] = some (.bool false) →
      (run o (fuel + 6) i .ExecuteTurn2 c).1.map Prod.fst =
        [.ExecuteTurn2, .HandleBedrockErrorTurn2, .FinalizeWithErrorTurn2,
         .StoreResults, .ShouldNotify, .WorkflowComplete]) ∧
    (SName.HandleBedrockErrorTurn1 ≠ SName.HandleBedrockErrorTurn2 ∧
     SName.FinalizeWithErrorTurn1 ≠ SName.FinalizeWithErrorTurn2) ∧
    (stateDef .WorkflowComplete).next = none := by
  refine ⟨?_, ?_, ⟨by decide, by decide⟩, rfl⟩
  · intro o fuel i c r1 r2 r3 e0 e1 e2 e3 hne
    exact c3_turn1_chain o fuel i c r1 r2 r3 e0 e1 e2 e3 hne
  · intro o fuel i c r1 r2 r3 e0 e1 e2 e3 hne
    exact c3_turn2_chain o fuel i c r1 r2 r3 e0 e1 e2 e3 hne

/-- C3 witness: the concrete ExecuteTurn1-failure recovery run. -/
theorem c3_witness :
    (run c3Oracle 6 0 .ExecuteTurn1 (J.obj [])).1.map Prod.fst =
      [.ExecuteTurn1, .HandleBedrockErrorTurn1, .FinalizeWithErrorTurn1,
       .StoreResults, .ShouldNotify, .WorkflowComplete] :=
  c3_dedicated_error_paths.1 c3Oracle 0 0 (J.obj []) notifyOffHandlerResult
    failedFinalResult (J.obj []) rfl rfl rfl rfl rfl

end VMVerif

namespace VMVerif

theorem step_goto_Notify_inv (o : Nat → Ev) (j : Nat) (s : SName) (c c' : J) (di : Nat)
    (h : step o j s c = .goto .Notify c' di) :
    s = .ShouldNotify ∧ c' = c ∧
      readPath c ["verificationContext", "notificationEnabled"] = some (.bool true) := by
  cases s
  case Init =>
    rw [stepEq_Init] at h
    cases ho : o j <;> rw [ho] at h <;> simp at h
  case FetchHistoricalVerification =>
    rw [stepEq_FetchHistoricalVerification] at h
    cases ho : o j <;> rw [ho] at h <;> simp at h
  case FetchImages =>
    rw [stepEq_FetchImages] at h
    cases ho : o j <;> rw [ho] at h <;> simp at h
  case PrepareSystemPrompt =>
    rw [stepEq_PrepareSystemPrompt] at h
    cases ho : o j <;> rw [ho] at h <;> simp at h
  case PrepareTurn1Prompt =>
    rw [stepEq_PrepareTurn1Prompt] at h
    rcases he : evalTmpl c prepare_turn1_prompt_payload with _ | u <;> rw [he] at h
    · simp at h
    · cases ho : o j <;> rw [ho] at h <;> simp at h
  case ExecuteTurn1 =>
    rw [stepEq_ExecuteTurn1] at h
    cases ho : o j <;> rw [ho] at h <;> simp at h
  case ProcessTurn1Response =>
    rw [stepEq_ProcessTurn1Response] at h
    cases ho : o j <;> rw [ho] at h <;> simp at h
  case PrepareTurn2Prompt =>
    rw [stepEq_PrepareTurn2Prompt] at h
    rcases he : evalTmpl c prepare_turn2_prompt_payload with _ | u <;> rw [he] at h
    · simp at h
    · cases ho : o j <;> rw [ho] at h <;> simp at h
  case ExecuteTurn2 =>
    rw [stepEq_ExecuteTurn2] at h
    cases ho : o j <;> rw [ho] at h <;> simp at h
  case ProcessTurn2Response =>
    rw [stepEq_ProcessTurn2Response] at h
    cases ho : o j <;> rw [ho] at h <;> simp at h
  case FinalizeResults =>
    rw [stepEq_FinalizeResults] at h
    cases ho : o j <;> rw [ho] at h <;> simp at h
  case StoreResults =>
    rw [stepEq_StoreResults] at h
    cases ho : o j <;> rw [ho] at h <;> simp at h
  case Notify =>
    rw [stepEq_Notify] at h
    cases ho : o j <;> rw [ho] at h <;> simp at h
  case HandleBedrockErrorTurn1 =>
    rw [stepEq_HandleBedrockErrorTurn1] at h
    cases ho : o j <;> rw [ho] at h <;> simp at h
  case HandleBedrockErrorTurn2 =>
    rw [stepEq_HandleBedrockErrorTurn2] at h
    cases ho : o j <;> rw [ho] at h <;> simp at h
  case FinalizeWithErrorTurn1 =>
    rw [stepEq_FinalizeWithErrorTurn1] at h
    cases ho : o j <;> rw [ho] at h <;> simp at h
  case FinalizeWithErrorTurn2 =>
    rw [stepEq_FinalizeWithErrorTurn2] at h
    cases ho : o j <;> rw [ho] at h <;> simp at h
  case InitConversationState =>
    rw [stepEq_InitConversationState] at h
    rcases he : evalTmpl c init_conversation_state_params with _ | r <;> rw [he] at h <;>
      simp at h
  case UpdateConversationStateAfterTurn1 =>
    rw [stepEq_UpdateConversationStateAfterTurn1] at h
    rcases he : evalTmpl c update_conversation_state_after_turn1_params with _ | r <;>
      rw [he] at h <;> simp at h
  case UpdateConversationStateAfterTurn2 =>
    rw [stepEq_UpdateConversationStateAfterTurn2] at h
    rcases he : evalTmpl c update_conversation_state_after_turn2_params with _ | r <;>
      rw [he] at h <;> simp at h
  case WorkflowComplete =>
    rw [stepEq_WorkflowComplete] at h
    rcases he : evalTmpl c workflow_complete_params with _ | r <;> rw [he] at h <;> simp at h
  case HandleInitError => rw [stepEq_HandleInitError] at h; simp at h
  case HandleHistoricalFetchError => rw [stepEq_HandleHistoricalFetchError] at h; simp at h
  case HandleFetchImagesError => rw [stepEq_HandleFetchImagesError] at h; simp at h
  case CheckVerificationType =>
    rw [stepEq_CheckVerificationType] at h
    rcases hr : readPath c ["verificationContext", "verificationType"] with _ | v <;>
      rw [hr] at h
    · simp at h
    · rcases v with _ | b | m | w | xs | fs
      · simp at h
      · simp at h
      · simp at h
      · by_cases hw : w = "previous_vs_current" <;> simp [hw] at h
      · simp at h
      · simp at h
  case ShouldNotify =>
    rw [stepEq_ShouldNotify] at h
    rcases hr : readPath c ["verificationContext", "notificationEnabled"] with _ | v <;>
      rw [hr] at h
    · simp at h
    · rcases v with _ | b | m | w | xs | fs
      · simp at h
      · cases b
        · simp at h
        · simp at h
          exact ⟨rfl, h.1.symm, rfl⟩
      · simp at h
      · simp at h
      · simp at h
      · simp at h

theorem step_goto_ShouldNotify_inv (o : Nat → Ev) (j : Nat) (s : SName) (c c' : J) (di : Nat)
    (h : step o j s c = .goto .ShouldNotify c' di) : s = .StoreResults := by
  cases s
  case Init =>
    rw [stepEq_Init] at h
    cases ho : o j <;> rw [ho] at h <;> simp at h
  case FetchHistoricalVerification =>
    rw [stepEq_FetchHistoricalVerification] at h
    cases ho : o j <;> rw [ho] at h <;> simp at h
  case FetchImages =>
    rw [stepEq_FetchImages] at h
    cases ho : o j <;> rw [ho] at h <;> simp at h
  case PrepareSystemPrompt =>
    rw [stepEq_PrepareSystemPrompt] at h
    cases ho : o j <;> rw [ho] at h <;> simp at h
  case PrepareTurn1Prompt =>
    rw [stepEq_PrepareTurn1Prompt] at h
    rcases he : evalTmpl c prepare_turn1_prompt_payload with _ | u <;> rw [he] at h
    · simp at h
    · cases ho : o j <;> rw [ho] at h <;> simp at h
  case ExecuteTurn1 =>
    rw [stepEq_ExecuteTurn1] at h
    cases ho : o j <;> rw [ho] at h <;> simp at h
  case ProcessTurn1Response =>
    rw [stepEq_ProcessTurn1Response] at h
    cases ho : o j <;> rw [ho] at h <;> simp at h
  case PrepareTurn2Prompt =>
    rw [stepEq_PrepareTurn2Prompt] at h
    rcases he : evalTmpl c prepare_turn2_prompt_payload with _ | u <;> rw [he] at h
    · simp at h
    · cases ho : o j <;> rw [ho] at h <;> simp at h
  case ExecuteTurn2 =>
    rw [stepEq_ExecuteTurn2] at h
    cases ho : o j <;> rw [ho] at h <;> simp at h
  case ProcessTurn2Response =>
    rw [stepEq_ProcessTurn2Response] at h
    cases ho : o j <;> rw [ho] at h <;> simp at h
  case FinalizeResults =>
    rw [stepEq_FinalizeResults] at h
    cases ho : o j <;> rw [ho] at h <;> simp at h
  case StoreResults => rfl
  case Notify =>
    rw [stepEq_Notify] at h
    cases ho : o j <;> rw [ho] at h <;> simp at h
  case HandleBedrockErrorTurn1 =>
    rw [stepEq_HandleBedrockErrorTurn1] at h
    cases ho : o j <;> rw [ho] at h <;> simp at h
  case HandleBedrockErrorTurn2 =>
    rw [stepEq_HandleBedrockErrorTurn2] at h
    cases ho : o j <;> rw [ho] at h <;> simp at h
  case FinalizeWithErrorTurn1 =>
    rw [stepEq_FinalizeWithErrorTurn1] at h
    cases ho : o j <;> rw [ho] at h <;> simp at h
  case FinalizeWithErrorTurn2 =>
    rw [stepEq_FinalizeWithErrorTurn2] at h
    cases ho : o j <;> rw [ho] at h <;> simp at h
  case InitConversationState =>
    rw [stepEq_InitConversationState] at h
    rcases he : evalTmpl c init_conversation_state_params with _ | r <;> rw [he] at h <;>
      simp at h
  case UpdateConversationStateAfterTurn1 =>
    rw [stepEq_UpdateConversationStateAfterTurn1] at h
    rcases he : evalTmpl c update_conversation_state_after_turn1_params with _ | r <;>
      rw [he] at h <;> simp at h
  case UpdateConversationStateAfterTurn2 =>
    rw [stepEq_UpdateConversationStateAfterTurn2] at h
    rcases he : evalTmpl c update_conversation_state_after_turn2_params with _ | r <;>
      rw [he] at h <;> simp at h
  case WorkflowComplete =>
    rw [stepEq_WorkflowComplete] at h
    rcases he : evalTmpl c workflow_complete_params with _ | r <;> rw [he] at h <;> simp at h
  case HandleInitError => rw [stepEq_HandleInitError] at h; simp at h
  case HandleHistoricalFetchError => rw [stepEq_HandleHistoricalFetchError] at h; simp at h
  case HandleFetchImagesError => rw [stepEq_HandleFetchImagesError] at h; simp at h
  case CheckVerificationType =>
    rw [stepEq_CheckVerificationType] at h
    rcases hr : readPath c ["verificationContext", "verificationType"] with _ | v <;>
      rw [hr] at h
    · simp at h
    · rcases v with _ | b | m | w | xs | fs
      · simp at h
      · simp at h
      · simp at h
      · by_cases hw : w = "previous_vs_current" <;> simp [hw] at h
      · simp at h
      · simp at h
  case ShouldNotify =>
    rw [stepEq_ShouldNotify] at h
    rcases hr : readPath c ["verificationContext", "notificationEnabled"] with _ | v <;>
      rw [hr] at h
    · simp at h
    · rcases v with _ | b | m | w | xs | fs
      · simp at h
      · cases b <;> simp at h
      · simp at h
      · simp at h
      · simp at h
      · simp at h

end VMVerif

namespace VMVerif

theorem exec_head (o : Nat → Ev) (c0 : J) :
    ∃ tl, (exec o c0).1 = (.Init, c0) :: tl :=
  run_head o 23 0 .Init c0

theorem notify_tail_no_notify (o : Nat → Ev) :
    ∀ fuel i c ys, (run o fuel i .Notify c).1 = (.Notify, c) :: ys →
      .Notify ∉ ys.map Prod.fst := by
  intro fuel i c ys h
  cases fuel with
  | zero => simp [run] at h
  | succ n =>
    cases ho : o i with
    | ok r =>
      rw [run_goto o n i .Notify c _ _ 1 (by rw [stepEq_Notify, ho])] at h
      injection h with h1 h2
      subst h2
      cases n with
      | zero => simp [run]
      | succ m =>
        rw [workflowComplete_trace]
        simp
    | fail =>
      rw [run_halt o n i .Notify c .failed (by rw [stepEq_Notify, ho])] at h
      injection h with h1 h2
      subst h2
      simp
    | timeout =>
      rw [run_halt o n i .Notify c .timedOut (by rw [stepEq_Notify, ho])] at h
      injection h with h1 h2
      subst h2
      simp

theorem sn_enabled_succeeded_enters_notify (o : Nat → Ev) :
    ∀ fuel i c out, (run o fuel i .ShouldNotify c).2 = .succeeded out →
      readPath c ["verificationContext", "notificationEnabled"] = some (.bool true) →
      .Notify ∈ (run o fuel i .ShouldNotify c).1.map Prod.fst := by
  intro fuel i c out hres hread
  cases fuel with
  | zero => simp [run] at hres
  | succ n =>
    have hstep : step o i .ShouldNotify c = .goto .Notify c 0 := by
      rw [stepEq_ShouldNotify, hread]
      simp
    rw [run_goto o n i .ShouldNotify c _ _ 0 hstep] at hres ⊢
    cases n with
    | zero => simp [run] at hres
    | succ m =>
      obtain ⟨tl, htl⟩ := run_head o m (i + 0) .Notify c
      rw [htl]
      simp

/-- Every Notify occurrence in a full execution trace was gated: its
entry context read notificationEnabled as true, a StoreResults entry
precedes it, and no second Notify entry follows. -/
theorem notify_occurrence (o : Nat → Ev) (c0 : J) (xs : List (SName × J)) (cN : J)
    (ys : List (SName × J)) (h : (exec o c0).1 = xs ++ (.Notify, cN) :: ys) :
    readPath cN ["verificationContext", "notificationEnabled"] = some (.bool true) ∧
    .StoreResults ∈ xs.map Prod.fst ∧
    .Notify ∉ ys.map Prod.fst ∧
    (∃ a ∈ xs, a.1 = .ShouldNotify ∧ cN = a.2) := by
  have hxs_ne : xs ≠ [] := by
    intro hx
    subst hx
    obtain ⟨tl, htl⟩ := exec_head o c0
    rw [htl] at h
    simp at h
  obtain ⟨xs', a, hxsa⟩ := (List.eq_nil_or_concat xs).resolve_left hxs_ne
  subst hxsa
  have h' : (exec o c0).1 = xs' ++ a :: (.Notify, cN) :: ys := by
    simpa using h
  obtain ⟨j, di, hstep⟩ := run_adjacent o 24 0 .Init c0 xs' a (.Notify, cN) ys h'
  obtain ⟨hsn, hceq, hread⟩ := step_goto_Notify_inv o j a.1 a.2 cN di hstep
  refine ⟨by rw [hceq]; exact hread, ?_, ?_, ⟨a, by simp, hsn, hceq⟩⟩
  · have hxs'_ne : xs' ≠ [] := by
      intro hx
      subst hx
      obtain ⟨tl, htl⟩ := exec_head o c0
      rw [htl] at h'
      simp at h'
      rw [← h'.1] at hsn
      simp at hsn
    obtain ⟨xs'', a', hxsb⟩ := (List.eq_nil_or_concat xs').resolve_left hxs'_ne
    subst hxsb
    have h'' : (exec o c0).1 = xs'' ++ a' :: a :: (.Notify, cN) :: ys := by
      simpa using h
    obtain ⟨j2, di2, hstep2⟩ :=
      run_adjacent o 24 0 .Init c0 xs'' a' a ((.Notify, cN) :: ys) h''
    rw [hsn] at hstep2
    have hst := step_goto_ShouldNotify_inv o j2 a'.1 a'.2 a.2 di2 hstep2
    exact List.mem_map.mpr ⟨a', by simp, hst⟩
  · obtain ⟨fuel', i', hle, hrun⟩ :=
      run_split o 24 0 .Init c0 (xs' ++ [a]) (.Notify, cN) ys (by simpa using h)
    have htr : (run o fuel' i' .Notify cN).1 = (.Notify, cN) :: ys := by
      rw [hrun]
    exact notify_tail_no_notify o fuel' i' cN ys htr

end VMVerif

namespace VMVerif

/-- C8 counterexample: an execution whose verification context has
notificationEnabled true at every entry after Initialize, but whose
FetchImages stage fails: it ends at the early-failure marker and the
notify task is never invoked, refuting the unconditional claim that a
true flag implies exactly one notify invocation. -/
theorem c8_counterexample :
    execTrace c8Oracle (J.obj []) =
      [.Init, .CheckVerificationType, .FetchImages, .HandleFetchImagesError] ∧
    isSucceeded (exec c8Oracle (J.obj [])).2 = true ∧
    (exec c8Oracle (J.obj [])).1.map
        (fun p => readPath p.2 ["verificationContext", "notificationEnabled"]) =
      [none, some (J.bool true), some (J.bool true), some (J.bool true)] ∧
    .Notify ∉ execTrace c8Oracle (J.obj []) :=
  ⟨rfl, rfl, rfl, by decide⟩

/-- C8 (amended): every Notify entry in a full execution trace was
entered with the notificationEnabled flag read true, after a
StoreResults entry, and is never followed by a second Notify entry; if
the flag reads false at every ShouldNotify entry, Notify never runs;
and in an execution that terminates normally, a ShouldNotify entry
whose context reads the flag true guarantees Notify is entered. -/
theorem c8_notification_gating :
    (∀ (o : Nat → Ev) (c0 : J) (xs : List (SName × J)) (cN : J) (ys : List (SName × J)),
      (exec o c0).1 = xs ++ (.Notify, cN) :: ys →
      readPath cN ["verificationContext", "notificationEnabled"] = some (.bool true) ∧
      .StoreResults ∈ xs.map Prod.fst ∧
      .Notify ∉ ys.map Prod.fst) ∧
    (∀ (o : Nat → Ev) (c0 : J),
      (∀ p ∈ (exec o c0).1, p.1 = .ShouldNotify →
        readPath p.2 ["verificationContext", "notificationEnabled"] = some (.bool false)) →
      .Notify ∉ execTrace o c0) ∧
    (∀ (o : Nat → Ev) (c0 : J) (k : Nat),
      isSucceeded (exec o c0).2 = true →
      ((exec o c0).1.getD k (.Init, J.null)).1 = .ShouldNotify →
      readPath ((exec o c0).1.getD k (.Init, J.null)).2
        ["verificationContext", "notificationEnabled"] = some (.bool true) →
      .Notify ∈ execTrace o c0) := by
  refine ⟨?_, ?_, ?_⟩
  · intro o c0 xs cN ys h
    obtain ⟨h1, h2, h3, h4⟩ := notify_occurrence o c0 xs cN ys h
    exact ⟨h1, h2, h3⟩
  · intro o c0 hall hmem
    obtain ⟨p, hp, hfst⟩ := List.mem_map.mp hmem
    obtain ⟨s, t, hst⟩ := List.append_of_mem hp
    have hpair : p = (.Notify, p.2) := Prod.ext hfst rfl
    have hst' : (exec o c0).1 = s ++ (.Notify, p.2) :: t := by
      rw [← hpair]
      exact hst
    obtain ⟨h1, h2, h3, a, ha, hsn, hceq⟩ := notify_occurrence o c0 s p.2 t hst'
    have hamem : a ∈ (exec o c0).1 := by
      rw [hst']
      exact List.mem_append_left _ ha
    have hfalse := hall a hamem hsn
    rw [← hceq, h1] at hfalse
    simp at hfalse
  · intro o c0 k hsucc hk hkread
    by_cases hlen : k < (exec o c0).1.length
    · have hmem : (exec o c0).1.getD k (.Init, J.null) ∈ (exec o c0).1 := by
        rw [List.getD_eq_getElem _ _ hlen]
        exact List.getElem_mem hlen
      obtain ⟨s, t, hst⟩ := List.append_of_mem hmem
      have hpair : (exec o c0).1.getD k (.Init, J.null) =
          (.ShouldNotify, ((exec o c0).1.getD k (.Init, J.null)).2) := Prod.ext hk rfl
      have hst' : (exec o c0).1 =
          s ++ (.ShouldNotify, ((exec o c0).1.getD k (.Init, J.null)).2) :: t := by
        rw [← hpair]
        exact hst
      obtain ⟨fuel', i', hle, hrun⟩ :=
        run_split o 24 0 .Init c0 s _ t hst'
      cases hres : (exec o c0).2 with
      | succeeded out =>
        have hsub : (run o fuel' i' .ShouldNotify
            ((exec o c0).1.getD k (.Init, J.null)).2).2 = .succeeded out := by
          rw [hrun]
          exact hres
        have hn := sn_enabled_succeeded_enters_notify o fuel' i'
          ((exec o c0).1.getD k (.Init, J.null)).2 out hsub hkread
        have htr : (run o fuel' i' .ShouldNotify
            ((exec o c0).1.getD k (.Init, J.null)).2).1 =
            (.ShouldNotify, ((exec o c0).1.getD k (.Init, J.null)).2) :: t := by
          rw [hrun]
        rw [htr] at hn
        show .Notify ∈ ((exec o c0).1.map Prod.fst)
        rw [hst']
        simp only [List.map_append, List.mem_append]
        right
        simpa using hn
      | failed => rw [hres] at hsucc; simp [isSucceeded] at hsucc
      | timedOut => rw [hres] at hsucc; simp [isSucceeded] at hsucc
      | outOfFuel => rw [hres] at hsucc; simp [isSucceeded] at hsucc
    · have hd : (exec o c0).1.getD k (.Init, J.null) = (.Init, J.null) :=
        List.getD_eq_default _ _ (Nat.le_of_not_lt hlen)
      rw [hd] at hk
      simp at hk

/-- C8 witness: the fully successful notification-enabled execution
invokes Notify. -/
theorem c8_witness : .Notify ∈ execTrace happyOracle (J.obj []) :=
  c8_notification_gating.2.2 happyOracle (J.obj []) 15 rfl rfl rfl

end VMVerif
